import Mathlib

/-!
# RongCloud server SDK: credential and endpoint manager

A shallow embedding of `sdk/rongcloud.go`: the client record, its constructor,
the failure-threshold setter, the transport-error observer with its host
switch, the request signature and the two header fillers.

Go's `int` and `time.Duration` are modelled by `Int`.  The only arithmetic
the file performs on them is `numTimeOut += 1`, executed only when
`numTimeOut < 3`, so no machine overflow can occur and unbounded integers
are exact.
-/

namespace sdk

/-! ## Constants (rongcloud.go, lines 46-61) -/

/-- RONGCLOUDSMSURI: default SMS API address. -/
def RONGCLOUDSMSURI : String := "http://api.sms.ronghub.com"

/-- RONGCLOUDURI: default API address. -/
def RONGCLOUDURI : String := "http://api-cn.ronghub.com"

/-- RONGCLOUDURI_2: backup API address. -/
def RONGCLOUDURI_2 : String := "http://api2-cn.ronghub.com"

/-- USERAGENT: name of the SDK. -/
def USERAGENT : String := "rc-go-sdk/3.0"

/-- DEFAULTTIMEOUT: default timeout. -/
def DEFAULTTIMEOUT : Int := 10

/-- NUMTIMEOUT: default number of timeouts before the API address is switched. -/
def NUMTIMEOUT : Int := 3

/-! ## Data model (lines 63-76) -/

/-- RongCloudExtra: custom server addresses, request timeout, and the
unexported `numTimeOut` field. -/
structure RongCloudExtra where
  RongCloudURI : String
  RongCloudSMSURI : String
  TimeOut : Int
  numTimeOut : Int
  deriving DecidableEq

/-- RongCloud: app key, app secret and the embedded `*RongCloudExtra`
(the record the pointer refers to). -/
structure RongCloud where
  appKey : String
  appSecret : String
  extra : RongCloudExtra
  deriving DecidableEq

/-! ## Go error values and `reflect.TypeOf` -/

/-- A non-nil Go `error` value: the identity of its dynamic type (the
canonical type string) and its message. -/
structure GoErrorValue where
  dynType : String
  msg : String
  deriving DecidableEq

/-- A Go `error` interface value; `none` is the nil interface. -/
abbrev GoError := Option GoErrorValue

/-- The dynamic type of `&url.Error{}`. -/
def urlErrorPtrType : String := "*url.Error"

/-- `reflect.TypeOf`: the dynamic type of an interface value, nil for the nil
interface. -/
def reflectTypeOf (err : GoError) : Option String :=
  match err with
  | none => none
  | some e => some e.dynType

/-- The value `&url.Error{}` the code compares against. -/
def emptyURLError : GoError := some { dynType := urlErrorPtrType, msg := "" }

/-- An error is a transport failure when its dynamic type is `*url.Error`. -/
def isTransportError (err : GoError) : Bool :=
  reflectTypeOf err == reflectTypeOf emptyURLError

/-! ## Constructor (lines 114-147) -/

/-- NewRongCloud: `extra = none` is the nil pointer. -/
def NewRongCloud (appKey appSecret : String) (extra : Option RongCloudExtra) : RongCloud :=
  let defaultExtra : RongCloudExtra :=
    { RongCloudURI := RONGCLOUDURI
      RongCloudSMSURI := RONGCLOUDSMSURI
      TimeOut := DEFAULTTIMEOUT
      numTimeOut := NUMTIMEOUT }
  match extra with
  | none => { appKey := appKey, appSecret := appSecret, extra := defaultExtra }
  | some extra =>
    let extra := if extra.TimeOut = 0 then { extra with TimeOut := DEFAULTTIMEOUT } else extra
    let extra :=
      if extra.RongCloudSMSURI = "" ∨ extra.RongCloudURI = "" then
        { extra with RongCloudURI := RONGCLOUDURI, RongCloudSMSURI := RONGCLOUDSMSURI }
      else extra
    { appKey := appKey, appSecret := appSecret, extra := extra }

/-! ## Host switch (lines 149-159) -/

/-- The unexported setRongCloudURI. -/
def setRongCloudURI (rc : RongCloud) : RongCloud :=
  if rc.extra.RongCloudURI = RONGCLOUDURI then
    { rc with extra := { rc.extra with RongCloudURI := RONGCLOUDURI_2 } }
  else if rc.extra.RongCloudURI ≠ RONGCLOUDURI ∧ rc.extra.RongCloudURI = RONGCLOUDURI_2 then
    rc
  else
    { rc with extra := { rc.extra with RongCloudURI := RONGCLOUDURI } }

/-! ## Threshold setter (lines 161-168) -/

/-- SetNumTimeOut: the resulting client and the returned error (`none` is nil). -/
def SetNumTimeOut (rc : RongCloud) (num : Int) : RongCloud × GoError :=
  if num < 0 then
    (rc, some { dynType := "*errors.errorString",
                msg := "invalid num, only allow greater than and equal to the 0 " })
  else
    ({ rc with extra := { rc.extra with numTimeOut := num } }, none)

/-! ## Transport-error observer (lines 170-183) -/

/-- URLError: observe the error of a completed call. -/
def URLError (rc : RongCloud) (err : GoError) : RongCloud :=
  if reflectTypeOf err = reflectTypeOf emptyURLError then
    if rc.extra.numTimeOut = 0 then
      rc
    else if rc.extra.numTimeOut ≥ 3 then
      let rc := setRongCloudURI rc
      { rc with extra := { rc.extra with numTimeOut := 1 } }
    else
      { rc with extra := { rc.extra with numTimeOut := rc.extra.numTimeOut + 1 } }
  else
    rc

/-- A run of consecutive URLError calls, one per error of the list, in order. -/
def URLErrors (rc : RongCloud) (errs : List GoError) : RongCloud :=
  errs.foldl URLError rc

/-! ## Standard-library functions used by getSignature

`strconv`, `crypto/sha1`, `io` and `fmt` are Go's standard library, not code
of this repository; they are modelled by their documented behaviour.  Go
strings are byte strings: a Lean `String` stands for the Go string holding its
UTF-8 encoding, and bytes are natural numbers below 256. -/

/-- UTF-8 encoding of one code point. -/
def utf8EncodeChar (c : Char) : List Nat :=
  let v := c.toNat
  if v ≤ 0x7f then [v]
  else if v ≤ 0x7ff then [0xc0 ||| (v >>> 6), 0x80 ||| (v &&& 0x3f)]
  else if v ≤ 0xffff then
    [0xe0 ||| (v >>> 12), 0x80 ||| ((v >>> 6) &&& 0x3f), 0x80 ||| (v &&& 0x3f)]
  else
    [0xf0 ||| (v >>> 18), 0x80 ||| ((v >>> 12) &&& 0x3f), 0x80 ||| ((v >>> 6) &&& 0x3f),
      0x80 ||| (v &&& 0x3f)]

/-- The bytes of a Go string. -/
def stringBytes (s : String) : List Nat :=
  s.data.foldr (fun c acc => utf8EncodeChar c ++ acc) []

/-- The digit table of `strconv`. -/
def strconvDigits : List Char := "0123456789abcdefghijklmnopqrstuvwxyz".data

/-- `strconv.formatBits`: the digits of `u` in the given base, most
significant first, put in front of `acc`; `fuel` bounds the number of digits. -/
def formatBits (base : Nat) : Nat → Nat → List Char → List Char
  | 0, _, acc => acc
  | fuel + 1, u, acc =>
    let acc := strconvDigits.getD (u % base) '0' :: acc
    if u / base = 0 then acc else formatBits base fuel (u / base) acc

/-- `strconv.FormatInt`: a minus sign for a negative number, then the digits
of its magnitude. -/
def FormatInt (i : Int) (base : Nat) : String :=
  if i < 0 then String.mk ('-' :: formatBits base (i.natAbs + 1) i.natAbs [])
  else String.mk (formatBits base (i.natAbs + 1) i.natAbs [])

/-- `strconv.Itoa`, which is `FormatInt(int64(i), 10)`. -/
def Itoa (i : Int) : String := FormatInt i 10

/-! ### SHA-1 (FIPS 180-4), on 32-bit words held in `Nat` -/

/-- Addition modulo 2^32. -/
def add32 (a b : Nat) : Nat := (a + b) % 2 ^ 32

/-- Left rotation of a 32-bit word. -/
def rotl32 (x n : Nat) : Nat := ((x <<< n) % 2 ^ 32) ||| (x >>> (32 - n))

/-- Bitwise complement of a 32-bit word. -/
def not32 (x : Nat) : Nat := 2 ^ 32 - 1 - x

/-- The `k` low-order bytes of `x`, big-endian. -/
def beBytes : Nat → Nat → List Nat
  | 0, _ => []
  | k + 1, x => (x >>> (8 * k)) % 256 :: beBytes k x

/-- Padding: a one bit, zero bits up to 56 modulo 64 bytes, the bit length on
8 bytes. -/
def sha1Pad (msg : List Nat) : List Nat :=
  let len := msg.length
  msg ++ 0x80 :: List.replicate ((119 - len % 64) % 64) 0 ++ beBytes 8 (8 * len)

/-- The big-endian number held by a byte list. -/
def beWord (bs : List Nat) : Nat :=
  bs.foldl (fun acc b => acc * 256 + b) 0

/-- The first `k` big-endian 32-bit words of a block. -/
def blockWords : Nat → List Nat → List Nat
  | 0, _ => []
  | k + 1, bs => beWord (bs.take 4) :: blockWords k (bs.drop 4)

/-- The next `k` words of the message schedule; `win` holds the last 16
words, the most recent first. -/
def schedule : Nat → List Nat → List Nat
  | 0, _ => []
  | k + 1, win =>
    let w := rotl32 (win.getD 2 0 ^^^ win.getD 7 0 ^^^ win.getD 13 0 ^^^ win.getD 15 0) 1
    w :: schedule k (w :: win.take 15)

/-- The five 32-bit chaining words. -/
structure Digest where
  h0 : Nat
  h1 : Nat
  h2 : Nat
  h3 : Nat
  h4 : Nat
  deriving DecidableEq

/-- Initial hash value. -/
def sha1Init : Digest :=
  { h0 := 0x67452301, h1 := 0xEFCDAB89, h2 := 0x98BADCFE, h3 := 0x10325476, h4 := 0xC3D2E1F0 }

/-- Round function of round `i`. -/
def sha1F (i b c d : Nat) : Nat :=
  if i < 20 then (b &&& c) ||| (not32 b &&& d)
  else if i < 40 then b ^^^ c ^^^ d
  else if i < 60 then (b &&& c) ||| (b &&& d) ||| (c &&& d)
  else b ^^^ c ^^^ d

/-- Round constant of round `i`. -/
def sha1K (i : Nat) : Nat :=
  if i < 20 then 0x5A827999
  else if i < 40 then 0x6ED9EBA1
  else if i < 60 then 0x8F1BBCDC
  else 0xCA62C1D6

/-- One round, on the pair of the round number and its schedule word. -/
def sha1Round (s : Digest) (iw : Nat × Nat) : Digest :=
  let t := add32 (add32 (add32 (add32 (rotl32 s.h0 5) (sha1F iw.1 s.h1 s.h2 s.h3)) s.h4)
    (sha1K iw.1)) iw.2
  { h0 := t, h1 := s.h0, h2 := rotl32 s.h1 30, h3 := s.h2, h4 := s.h3 }

/-- Compression of one 64-byte block. -/
def sha1Block (h : Digest) (block : List Nat) : Digest :=
  let w16 := blockWords 16 block
  let w := w16 ++ schedule 64 w16.reverse
  let s := ((List.range 80).zip w).foldl sha1Round h
  { h0 := add32 h.h0 s.h0, h1 := add32 h.h1 s.h1, h2 := add32 h.h2 s.h2,
    h3 := add32 h.h3 s.h3, h4 := add32 h.h4 s.h4 }

/-- Compression of the first `k` blocks of a byte list. -/
def sha1Blocks : Nat → Digest → List Nat → Digest
  | 0, h, _ => h
  | k + 1, h, bs => sha1Blocks k (sha1Block h (bs.take 64)) (bs.drop 64)

/-- The 20-byte SHA-1 digest of a byte list. -/
def sha1Sum (msg : List Nat) : List Nat :=
  let p := sha1Pad msg
  let d := sha1Blocks (p.length / 64) sha1Init p
  beBytes 4 d.h0 ++ beBytes 4 d.h1 ++ beBytes 4 d.h2 ++ beBytes 4 d.h3 ++ beBytes 4 d.h4

/-- State of the `hash.Hash` returned by `sha1.New`: the bytes written so
far. -/
structure Sha1Hash where
  written : List Nat
  deriving DecidableEq

/-- `sha1.New()`. -/
def sha1New : Sha1Hash := { written := [] }

/-- `io.WriteString(h, s)`. -/
def ioWriteString (h : Sha1Hash) (s : String) : Sha1Hash :=
  { written := h.written ++ stringBytes s }

/-- `h.Sum(b)`: the digest of what was written, appended to `b`. -/
def Sha1Hash.Sum (h : Sha1Hash) (b : List Nat) : List Nat :=
  b ++ sha1Sum h.written

/-- The lowercase hexadecimal digit of a value below 16. -/
def hexDigit (n : Nat) : Char :=
  "0123456789abcdef".data.getD n '0'

/-- Two lowercase hexadecimal digits per byte. -/
def hexEncode (bs : List Nat) : List Char :=
  bs.foldr (fun b acc => hexDigit (b / 16) :: hexDigit (b % 16) :: acc) []

/-- `fmt.Sprintf("%x", bs)` on a byte slice. -/
def fmtSprintfHex (bs : List Nat) : String := String.mk (hexEncode bs)

/-! ## Signature (lines 84-96) -/

/-- Lines 92-94 of getSignature: the signature string computed from the
secret and the two strings `nonce` and `timestamp`. -/
def signatureOf (appSecret nonce timestamp : String) : String :=
  let h := sha1New
  let h := ioWriteString h (appSecret ++ nonce ++ timestamp)
  fmtSprintfHex (h.Sum [])

/-- The unexported getSignature.  Its two reads of the environment are
inputs: `nonceInt` is the value returned by `rand.Int()` and `timeInt64` the
value returned by `time.Now().Unix()`.  The result is the triple
(nonce, timestamp, signature). -/
def getSignature (rc : RongCloud) (nonceInt timeInt64 : Int) : String × String × String :=
  let nonce := Itoa nonceInt
  let timestamp := FormatInt timeInt64 10
  let signature := signatureOf rc.appSecret nonce timestamp
  (nonce, timestamp, signature)

/-! ## Specification-side notions for the signature -/

/-- The value of a decimal digit character. -/
def digitValue (c : Char) : Nat := c.toNat - 48

/-- The number a list of decimal digits denotes. -/
def decimalValue (cs : List Char) : Nat :=
  cs.foldl (fun acc c => 10 * acc + digitValue c) 0

/-- A non-empty list of characters `0` to `9`. -/
def isDecimalDigits (cs : List Char) : Bool :=
  !cs.isEmpty && cs.all (fun c => decide (48 ≤ c.toNat ∧ c.toNat ≤ 57))

/-- The integer a decimal string denotes: an optional minus sign, then a
non-empty run of decimal digits. -/
def readDecimal (s : String) : Option Int :=
  match s.data with
  | [] => none
  | c :: ds =>
    if c = '-' then
      if isDecimalDigits ds then some (-(decimalValue ds : Int)) else none
    else if isDecimalDigits (c :: ds) then some (decimalValue (c :: ds) : Int)
    else none

/-- The SHA-1 digest of a string, in lowercase hexadecimal. -/
def sha1Hex (s : String) : String :=
  String.mk (hexEncode (sha1Sum (stringBytes s)))

/-! ## Request headers (lines 98-112)

`httplib.BeegoHTTPRequest` belongs to the beego library, not to this
repository.  Of a request only the header map is kept; `Header(key, value)`
is `http.Header.Set`, which replaces whatever the key held.  The six keys the
SDK writes are already in canonical MIME form, so they are stored as
written. -/

/-- The header map of an `httplib.BeegoHTTPRequest`. -/
structure BeegoHTTPRequest where
  headers : List (String × String)
  deriving DecidableEq

/-- `req.Header(key, value)`: set the header, replacing an earlier value. -/
def BeegoHTTPRequest.Header (req : BeegoHTTPRequest) (key value : String) :
    BeegoHTTPRequest :=
  { headers := (key, value) :: req.headers.filter (fun p => p.1 != key) }

/-- The value a request holds under a header key, if any. -/
def BeegoHTTPRequest.get (req : BeegoHTTPRequest) (key : String) : Option String :=
  req.headers.lookup key

/-- FillHeader: add the API signature to the HTTP header.  `nonceInt` and
`timeInt64` are the environment reads of its one getSignature call. -/
def FillHeader (rc : RongCloud) (nonceInt timeInt64 : Int) (req : BeegoHTTPRequest) :
    BeegoHTTPRequest :=
  let sig := getSignature rc nonceInt timeInt64
  let req := req.Header "App-Key" rc.appKey
  let req := req.Header "Nonce" sig.1
  let req := req.Header "Timestamp" sig.2.1
  let req := req.Header "Signature" sig.2.2
  let req := req.Header "Content-Type" "application/x-www-form-urlencoded"
  req.Header "User-Agent" USERAGENT

/-- FillJSONHeader: set the header Content-Type to the JSON format. -/
def FillJSONHeader (req : BeegoHTTPRequest) : BeegoHTTPRequest :=
  req.Header "Content-Type" "application/json"

/-! ## Sequences of calls on a client -/

/-- One of the two state-changing calls a user can make on a client: its
argument is the integer passed to SetNumTimeOut or the error passed to
URLError. -/
inductive Call where
  | setNumTimeOut (num : Int)
  | urlError (err : GoError)
  deriving DecidableEq

/-- The client after one call (the error SetNumTimeOut returns is dropped). -/
def Call.apply (rc : RongCloud) (c : Call) : RongCloud :=
  match c with
  | Call.setNumTimeOut num => (SetNumTimeOut rc num).1
  | Call.urlError err => URLError rc err

/-- The client after a finite sequence of calls, made in order. -/
def runCalls (rc : RongCloud) (calls : List Call) : RongCloud :=
  calls.foldl Call.apply rc

/-- The base URL before the first call and after each call of a sequence. -/
def urlTrace (rc : RongCloud) : List Call → List String
  | [] => [rc.extra.RongCloudURI]
  | c :: cs => rc.extra.RongCloudURI :: urlTrace (Call.apply rc c) cs

/-- The number of positions of a list at which the value differs from the
one before it. -/
def countChanges : List String → Nat
  | [] => 0
  | [_] => 0
  | a :: b :: rest => (if a = b then 0 else 1) + countChanges (b :: rest)

/-- A call that is not a SetNumTimeOut with a positive argument. -/
def Call.notPositiveSet (c : Call) : Bool :=
  match c with
  | Call.setNumTimeOut num => decide (num ≤ 0)
  | Call.urlError _ => true

/-! ## Basic facts about the observer -/

theorem isTransportError_iff (err : GoError) :
    isTransportError err = true ↔ reflectTypeOf err = reflectTypeOf emptyURLError := by
  simp [isTransportError]

theorem URLError_of_not_transport (rc : RongCloud) (err : GoError)
    (h : isTransportError err = false) : URLError rc err = rc := by
  have h2 : ¬ reflectTypeOf err = reflectTypeOf emptyURLError := by
    intro hc
    rw [(isTransportError_iff err).mpr hc] at h
    exact Bool.noConfusion h
  simp [URLError, h2]

theorem URLError_zero (rc : RongCloud) (err : GoError) (h0 : rc.extra.numTimeOut = 0) :
    URLError rc err = rc := by
  simp [URLError, h0]

theorem URLError_switch (rc : RongCloud) (err : GoError) (ht : isTransportError err = true)
    (h3 : rc.extra.numTimeOut ≥ 3) :
    URLError rc err =
      ⟨(setRongCloudURI rc).appKey, (setRongCloudURI rc).appSecret,
        ⟨(setRongCloudURI rc).extra.RongCloudURI, (setRongCloudURI rc).extra.RongCloudSMSURI,
          (setRongCloudURI rc).extra.TimeOut, 1⟩⟩ := by
  have h1 := (isTransportError_iff err).mp ht
  have h0 : ¬ rc.extra.numTimeOut = 0 := by omega
  simp [URLError, h1, h0, h3]

theorem URLError_count (rc : RongCloud) (err : GoError) (ht : isTransportError err = true)
    (h0 : rc.extra.numTimeOut ≠ 0) (h3 : rc.extra.numTimeOut < 3) :
    URLError rc err =
      ⟨rc.appKey, rc.appSecret,
        ⟨rc.extra.RongCloudURI, rc.extra.RongCloudSMSURI, rc.extra.TimeOut,
          rc.extra.numTimeOut + 1⟩⟩ := by
  have h1 := (isTransportError_iff err).mp ht
  have h3n : ¬ rc.extra.numTimeOut ≥ 3 := by omega
  simp [URLError, h1, h0, h3n]

theorem setRongCloudURI_primary (rc : RongCloud) (h : rc.extra.RongCloudURI = RONGCLOUDURI) :
    setRongCloudURI rc =
      ⟨rc.appKey, rc.appSecret,
        ⟨RONGCLOUDURI_2, rc.extra.RongCloudSMSURI, rc.extra.TimeOut, rc.extra.numTimeOut⟩⟩ := by
  simp [setRongCloudURI, h]

theorem RONGCLOUDURI_2_ne : RONGCLOUDURI_2 ≠ RONGCLOUDURI := by decide

theorem setRongCloudURI_secondary (rc : RongCloud)
    (h : rc.extra.RongCloudURI = RONGCLOUDURI_2) : setRongCloudURI rc = rc := by
  have hne : ¬ rc.extra.RongCloudURI = RONGCLOUDURI := by
    rw [h]; exact RONGCLOUDURI_2_ne
  unfold setRongCloudURI
  rw [if_neg hne, if_pos ⟨hne, h⟩]

theorem setRongCloudURI_custom (rc : RongCloud)
    (h1 : rc.extra.RongCloudURI ≠ RONGCLOUDURI) (h2 : rc.extra.RongCloudURI ≠ RONGCLOUDURI_2) :
    setRongCloudURI rc =
      ⟨rc.appKey, rc.appSecret,
        ⟨RONGCLOUDURI, rc.extra.RongCloudSMSURI, rc.extra.TimeOut, rc.extra.numTimeOut⟩⟩ := by
  simp [setRongCloudURI, h1, h2]

theorem URLErrors_zero (rc : RongCloud) (errs : List GoError)
    (h0 : rc.extra.numTimeOut = 0) : URLErrors rc errs = rc := by
  induction errs with
  | nil => rfl
  | cons e es ih =>
    show URLErrors (URLError rc e) es = rc
    rw [URLError_zero rc e h0]
    exact ih

/-! ## Failover scenario -/

/-- C1: on a client whose base URL is the primary default and whose
`numTimeOut` is 1, four consecutive URLError calls with transport errors leave
the URL on the primary after the first and the second call (counter 2, then
3), the third call moves the URL to the secondary default and resets the
counter to 1, and the fourth call keeps the secondary and only raises the
counter to 2. -/
theorem URLError_failover_scenario (rc : RongCloud) (e1 e2 e3 e4 : GoError)
    (hURI : rc.extra.RongCloudURI = RONGCLOUDURI) (hn : rc.extra.numTimeOut = 1)
    (h1 : isTransportError e1 = true) (h2 : isTransportError e2 = true)
    (h3 : isTransportError e3 = true) (h4 : isTransportError e4 = true) :
    ((URLErrors rc [e1]).extra.RongCloudURI = RONGCLOUDURI ∧
      (URLErrors rc [e1]).extra.numTimeOut = 2) ∧
    ((URLErrors rc [e1, e2]).extra.RongCloudURI = RONGCLOUDURI ∧
      (URLErrors rc [e1, e2]).extra.numTimeOut = 3) ∧
    ((URLErrors rc [e1, e2, e3]).extra.RongCloudURI = RONGCLOUDURI_2 ∧
      (URLErrors rc [e1, e2, e3]).extra.numTimeOut = 1) ∧
    ((URLErrors rc [e1, e2, e3, e4]).extra.RongCloudURI = RONGCLOUDURI_2 ∧
      (URLErrors rc [e1, e2, e3, e4]).extra.numTimeOut = 2) := by
  have s1 : URLError rc e1 =
      ⟨rc.appKey, rc.appSecret,
        ⟨RONGCLOUDURI, rc.extra.RongCloudSMSURI, rc.extra.TimeOut, 2⟩⟩ := by
    rw [URLError_count rc e1 h1 (by omega) (by omega), hn, hURI]; rfl
  have s2 : URLError (URLError rc e1) e2 =
      ⟨rc.appKey, rc.appSecret,
        ⟨RONGCLOUDURI, rc.extra.RongCloudSMSURI, rc.extra.TimeOut, 3⟩⟩ := by
    rw [s1, URLError_count _ e2 h2 (by simp) (by simp)]; rfl
  have s3 : URLError (URLError (URLError rc e1) e2) e3 =
      ⟨rc.appKey, rc.appSecret,
        ⟨RONGCLOUDURI_2, rc.extra.RongCloudSMSURI, rc.extra.TimeOut, 1⟩⟩ := by
    rw [s2, URLError_switch _ e3 h3 (by simp), setRongCloudURI_primary _ rfl]
  have s4 : URLError (URLError (URLError (URLError rc e1) e2) e3) e4 =
      ⟨rc.appKey, rc.appSecret,
        ⟨RONGCLOUDURI_2, rc.extra.RongCloudSMSURI, rc.extra.TimeOut, 2⟩⟩ := by
    rw [s3, URLError_count _ e4 h4 (by simp) (by simp)]; rfl
  refine ⟨?_, ?_, ?_, ?_⟩
  · show (URLError rc e1).extra.RongCloudURI = _ ∧ (URLError rc e1).extra.numTimeOut = _
    rw [s1]; exact ⟨rfl, rfl⟩
  · show (URLError (URLError rc e1) e2).extra.RongCloudURI = _ ∧
      (URLError (URLError rc e1) e2).extra.numTimeOut = _
    rw [s2]; exact ⟨rfl, rfl⟩
  · show (URLError (URLError (URLError rc e1) e2) e3).extra.RongCloudURI = _ ∧
      (URLError (URLError (URLError rc e1) e2) e3).extra.numTimeOut = _
    rw [s3]; exact ⟨rfl, rfl⟩
  · show (URLError (URLError (URLError (URLError rc e1) e2) e3) e4).extra.RongCloudURI = _ ∧
      (URLError (URLError (URLError (URLError rc e1) e2) e3) e4).extra.numTimeOut = _
    rw [s4]; exact ⟨rfl, rfl⟩

/-- Witness for C1: a freshly built client whose counter was set to 1, hit by
four `*url.Error` values. -/
theorem URLError_failover_scenario_witness :
    let rc := (SetNumTimeOut (NewRongCloud "key" "secret" none) 1).1
    rc.extra.RongCloudURI = RONGCLOUDURI ∧ rc.extra.numTimeOut = 1 ∧
    isTransportError emptyURLError = true ∧
    ((URLErrors rc [emptyURLError]).extra.RongCloudURI = RONGCLOUDURI ∧
      (URLErrors rc [emptyURLError]).extra.numTimeOut = 2) ∧
    ((URLErrors rc [emptyURLError, emptyURLError]).extra.RongCloudURI = RONGCLOUDURI ∧
      (URLErrors rc [emptyURLError, emptyURLError]).extra.numTimeOut = 3) ∧
    ((URLErrors rc [emptyURLError, emptyURLError, emptyURLError]).extra.RongCloudURI
        = RONGCLOUDURI_2 ∧
      (URLErrors rc [emptyURLError, emptyURLError, emptyURLError]).extra.numTimeOut = 1) ∧
    ((URLErrors rc [emptyURLError, emptyURLError, emptyURLError,
        emptyURLError]).extra.RongCloudURI = RONGCLOUDURI_2 ∧
      (URLErrors rc [emptyURLError, emptyURLError, emptyURLError,
        emptyURLError]).extra.numTimeOut = 2) :=
  ⟨by decide, by decide, by decide,
    URLError_failover_scenario (SetNumTimeOut (NewRongCloud "key" "secret" none) 1).1
      emptyURLError emptyURLError emptyURLError emptyURLError
      (by decide) (by decide) (by decide) (by decide) (by decide) (by decide)⟩

/-! ## Threshold in effect -/

/-- C2 (defect of the code): a client built by NewRongCloud without an
override is on the primary host with `numTimeOut = 3`, and the very first
URLError call with a transport error already moves it to the secondary host;
the same happens on the first transport error after `SetNumTimeOut 5`.  The
first `t - 1` failures therefore do not leave the URL unchanged for `t = 3`
or `t = 5`. -/
theorem URLError_first_failure_switches :
    (NewRongCloud "key" "secret" none).extra.RongCloudURI = RONGCLOUDURI ∧
    (NewRongCloud "key" "secret" none).extra.numTimeOut = 3 ∧
    (URLError (NewRongCloud "key" "secret" none) emptyURLError).extra.RongCloudURI
      = RONGCLOUDURI_2 ∧
    (SetNumTimeOut (NewRongCloud "key" "secret" none) 5).2 = none ∧
    (SetNumTimeOut (NewRongCloud "key" "secret" none) 5).1.extra.RongCloudURI = RONGCLOUDURI ∧
    (URLError (SetNumTimeOut (NewRongCloud "key" "secret" none) 5).1
      emptyURLError).extra.RongCloudURI = RONGCLOUDURI_2 := by
  decide

/-! ## Toggle semantics -/

/-- C3 (as stated, refuted): a client that reached the secondary default host
with `numTimeOut = 3` through three transport failures after construction is
not moved back to the primary default host by a further transport error. -/
theorem URLError_secondary_switch_back_counterexample :
    (URLErrors (NewRongCloud "key" "secret" none)
        [emptyURLError, emptyURLError, emptyURLError]).extra.RongCloudURI = RONGCLOUDURI_2 ∧
    (URLErrors (NewRongCloud "key" "secret" none)
        [emptyURLError, emptyURLError, emptyURLError]).extra.numTimeOut ≥ 3 ∧
    isTransportError emptyURLError = true ∧
    (URLError (URLErrors (NewRongCloud "key" "secret" none)
        [emptyURLError, emptyURLError, emptyURLError]) emptyURLError).extra.RongCloudURI
      ≠ RONGCLOUDURI := by
  decide

/-- C3 (amended): on a client whose base URL is the secondary default host
and whose `numTimeOut` is at least 3, URLError with a transport error keeps
the base URL on the secondary default host, sets `numTimeOut` to 1 and changes
nothing else. -/
theorem URLError_secondary_stays (rc : RongCloud) (err : GoError)
    (hURI : rc.extra.RongCloudURI = RONGCLOUDURI_2) (h3 : rc.extra.numTimeOut ≥ 3)
    (ht : isTransportError err = true) :
    (URLError rc err).extra.RongCloudURI = RONGCLOUDURI_2 ∧
    (URLError rc err).extra.numTimeOut = 1 ∧
    URLError rc err =
      ⟨rc.appKey, rc.appSecret,
        ⟨RONGCLOUDURI_2, rc.extra.RongCloudSMSURI, rc.extra.TimeOut, 1⟩⟩ := by
  rw [URLError_switch rc err ht h3, setRongCloudURI_secondary rc hURI, hURI]
  exact ⟨rfl, rfl, rfl⟩

/-- Witness for C3 (amended): a client on the secondary host with counter 7. -/
theorem URLError_secondary_stays_witness :
    let rc : RongCloud := ⟨"key", "secret", ⟨RONGCLOUDURI_2, RONGCLOUDSMSURI, 10, 7⟩⟩
    (URLError rc emptyURLError).extra.RongCloudURI = RONGCLOUDURI_2 ∧
    (URLError rc emptyURLError).extra.numTimeOut = 1 ∧
    URLError rc emptyURLError =
      ⟨"key", "secret", ⟨RONGCLOUDURI_2, RONGCLOUDSMSURI, 10, 1⟩⟩ :=
  URLError_secondary_stays ⟨"key", "secret", ⟨RONGCLOUDURI_2, RONGCLOUDSMSURI, 10, 7⟩⟩
    emptyURLError rfl (by decide) (by decide)

/-- C4: when `numTimeOut` is at least 3, URLError with a transport error sets
the base URL to the secondary default if it was the primary default, sets it
to the primary default if it was a custom host (neither of the two defaults),
and in both cases the counter becomes 1. -/
theorem URLError_toggle (rc : RongCloud) (err : GoError)
    (h3 : rc.extra.numTimeOut ≥ 3) (ht : isTransportError err = true) :
    (rc.extra.RongCloudURI = RONGCLOUDURI →
      (URLError rc err).extra.RongCloudURI = RONGCLOUDURI_2 ∧
      (URLError rc err).extra.numTimeOut = 1) ∧
    (rc.extra.RongCloudURI ≠ RONGCLOUDURI ∧ rc.extra.RongCloudURI ≠ RONGCLOUDURI_2 →
      (URLError rc err).extra.RongCloudURI = RONGCLOUDURI ∧
      (URLError rc err).extra.numTimeOut = 1) := by
  constructor
  · intro hp
    rw [URLError_switch rc err ht h3, setRongCloudURI_primary rc hp]
    exact ⟨rfl, rfl⟩
  · intro hc
    rw [URLError_switch rc err ht h3, setRongCloudURI_custom rc hc.1 hc.2]
    exact ⟨rfl, rfl⟩

/-- Witness for C4: one client on the primary default and one on a custom
host, both with counter 3. -/
theorem URLError_toggle_witness :
    ((URLError ⟨"key", "secret", ⟨RONGCLOUDURI, RONGCLOUDSMSURI, 10, 3⟩⟩
        emptyURLError).extra.RongCloudURI = RONGCLOUDURI_2 ∧
      (URLError ⟨"key", "secret", ⟨RONGCLOUDURI, RONGCLOUDSMSURI, 10, 3⟩⟩
        emptyURLError).extra.numTimeOut = 1) ∧
    ((URLError ⟨"key", "secret", ⟨"http://api.example.com", "http://sms.example.com", 10, 4⟩⟩
        emptyURLError).extra.RongCloudURI = RONGCLOUDURI ∧
      (URLError ⟨"key", "secret", ⟨"http://api.example.com", "http://sms.example.com", 10, 4⟩⟩
        emptyURLError).extra.numTimeOut = 1) :=
  ⟨(URLError_toggle ⟨"key", "secret", ⟨RONGCLOUDURI, RONGCLOUDSMSURI, 10, 3⟩⟩ emptyURLError
      (by decide) (by decide)).1 rfl,
    (URLError_toggle ⟨"key", "secret", ⟨"http://api.example.com", "http://sms.example.com", 10, 4⟩⟩
      emptyURLError (by decide) (by decide)).2 ⟨by decide, by decide⟩⟩

/-! ## Failover disabled -/

/-- C5: on a client whose `numTimeOut` is 0, after any finite sequence of
URLError calls with transport errors, and after every initial part of it, the base
URL is the one it started with and `numTimeOut` is still 0 (the client is
unchanged altogether). -/
theorem URLErrors_disabled (rc : RongCloud) (errs : List GoError)
    (h0 : rc.extra.numTimeOut = 0) (_ht : ∀ e ∈ errs, isTransportError e = true) :
    ∀ k : Nat,
      (URLErrors rc (errs.take k)).extra.RongCloudURI = rc.extra.RongCloudURI ∧
      (URLErrors rc (errs.take k)).extra.numTimeOut = 0 ∧
      URLErrors rc (errs.take k) = rc := by
  intro k
  rw [URLErrors_zero rc (errs.take k) h0]
  exact ⟨rfl, h0, rfl⟩

/-- Witness for C5: five transport errors on a client with threshold 0,
looked at after the whole run. -/
theorem URLErrors_disabled_witness :
    let rc := (SetNumTimeOut (NewRongCloud "key" "secret" none) 0).1
    let errs := List.replicate 5 emptyURLError
    rc.extra.numTimeOut = 0 ∧
    (URLErrors rc (errs.take 5)).extra.RongCloudURI = RONGCLOUDURI ∧
    (URLErrors rc (errs.take 5)).extra.numTimeOut = 0 ∧
    URLErrors rc (errs.take 5) = rc :=
  ⟨by decide,
    URLErrors_disabled (SetNumTimeOut (NewRongCloud "key" "secret" none) 0).1
      (List.replicate 5 emptyURLError) (by decide) (by decide) 5⟩

/-! ## Errors that are not transport failures -/

/-- C6: for every client state and every error value whose dynamic type is
not `*url.Error` (the nil error included), URLError returns the client
unchanged: neither the counter nor the base URL is touched. -/
theorem URLError_ignores_other_errors (rc : RongCloud) (err : GoError)
    (h : reflectTypeOf err ≠ some urlErrorPtrType) :
    URLError rc err = rc ∧
    (URLError rc err).extra.numTimeOut = rc.extra.numTimeOut ∧
    (URLError rc err).extra.RongCloudURI = rc.extra.RongCloudURI := by
  have hn : isTransportError err = false := by
    cases hb : isTransportError err with
    | false => rfl
    | true => exact absurd ((isTransportError_iff err).mp hb) h
  rw [URLError_of_not_transport rc err hn]
  exact ⟨rfl, rfl, rfl⟩

/-- Witness for C6: the nil error and an application-level error (HTTP 401
with a body, carried by a `*sdk.CodeResult`-typed value) on a client that
would switch on a transport error. -/
theorem URLError_ignores_other_errors_witness :
    (URLError (NewRongCloud "key" "secret" none) none = NewRongCloud "key" "secret" none ∧
      (URLError (NewRongCloud "key" "secret" none) none).extra.numTimeOut = 3 ∧
      (URLError (NewRongCloud "key" "secret" none) none).extra.RongCloudURI = RONGCLOUDURI) ∧
    (URLError (NewRongCloud "key" "secret" none)
        (some ⟨"*sdk.CodeResult", "401 Unauthorized"⟩) = NewRongCloud "key" "secret" none ∧
      (URLError (NewRongCloud "key" "secret" none)
        (some ⟨"*sdk.CodeResult", "401 Unauthorized"⟩)).extra.numTimeOut = 3 ∧
      (URLError (NewRongCloud "key" "secret" none)
        (some ⟨"*sdk.CodeResult", "401 Unauthorized"⟩)).extra.RongCloudURI = RONGCLOUDURI) :=
  ⟨URLError_ignores_other_errors (NewRongCloud "key" "secret" none) none (by decide),
    URLError_ignores_other_errors (NewRongCloud "key" "secret" none)
      (some ⟨"*sdk.CodeResult", "401 Unauthorized"⟩) (by decide)⟩

/-! ## Configuring the threshold -/

/-- C7: SetNumTimeOut returns a non-nil error exactly when `num < 0`, and for
every `num < 0` the client (threshold and every other field) is returned
unchanged. -/
theorem SetNumTimeOut_negative (rc : RongCloud) (num : Int) :
    ((SetNumTimeOut rc num).2 ≠ none ↔ num < 0) ∧
    (num < 0 → (SetNumTimeOut rc num).1 = rc ∧
      (SetNumTimeOut rc num).1.extra.numTimeOut = rc.extra.numTimeOut) := by
  unfold SetNumTimeOut
  by_cases h : num < 0
  · simp [h]
  · simp [h]

/-- Witness for C7: the threshold -1 on a default client. -/
theorem SetNumTimeOut_negative_witness :
    (SetNumTimeOut (NewRongCloud "key" "secret" none) (-1)).2 ≠ none ∧
    (SetNumTimeOut (NewRongCloud "key" "secret" none) (-1)).1 = NewRongCloud "key" "secret" none ∧
    (SetNumTimeOut (NewRongCloud "key" "secret" none) (-1)).1.extra.numTimeOut = 3 :=
  ⟨(SetNumTimeOut_negative (NewRongCloud "key" "secret" none) (-1)).1.mpr (by decide),
    (SetNumTimeOut_negative (NewRongCloud "key" "secret" none) (-1)).2 (by decide)⟩

/-- C8: for every client and every `num ≥ 0`, SetNumTimeOut returns nil,
`numTimeOut` equals `num` afterwards, and appKey, appSecret, RongCloudURI,
RongCloudSMSURI and TimeOut are unchanged. -/
theorem SetNumTimeOut_accepts (rc : RongCloud) (num : Int) (h : 0 ≤ num) :
    (SetNumTimeOut rc num).2 = none ∧
    (SetNumTimeOut rc num).1.extra.numTimeOut = num ∧
    (SetNumTimeOut rc num).1.appKey = rc.appKey ∧
    (SetNumTimeOut rc num).1.appSecret = rc.appSecret ∧
    (SetNumTimeOut rc num).1.extra.RongCloudURI = rc.extra.RongCloudURI ∧
    (SetNumTimeOut rc num).1.extra.RongCloudSMSURI = rc.extra.RongCloudSMSURI ∧
    (SetNumTimeOut rc num).1.extra.TimeOut = rc.extra.TimeOut := by
  have hn : ¬ num < 0 := by omega
  simp [SetNumTimeOut, hn]

/-- Witness for C8: the thresholds 0 and 8 on a default client. -/
theorem SetNumTimeOut_accepts_witness :
    (SetNumTimeOut (NewRongCloud "key" "secret" none) 0).1.extra.numTimeOut = 0 ∧
    (SetNumTimeOut (NewRongCloud "key" "secret" none) 8).2 = none ∧
    (SetNumTimeOut (NewRongCloud "key" "secret" none) 8).1.extra.numTimeOut = 8 ∧
    (SetNumTimeOut (NewRongCloud "key" "secret" none) 8).1.appKey = "key" :=
  ⟨(SetNumTimeOut_accepts (NewRongCloud "key" "secret" none) 0 (by decide)).2.1,
    (SetNumTimeOut_accepts (NewRongCloud "key" "secret" none) 8 (by decide)).1,
    (SetNumTimeOut_accepts (NewRongCloud "key" "secret" none) 8 (by decide)).2.1,
    (SetNumTimeOut_accepts (NewRongCloud "key" "secret" none) 8 (by decide)).2.2.1⟩

/-! ## Decimal formatting -/

theorem strconvDigits_decimal (d : Nat) (h : d < 10) :
    (strconvDigits.getD d '0').toNat = 48 + d := by
  interval_cases d <;> rfl

theorem decimalValue_snoc (ds : List Char) (c : Char) :
    decimalValue (ds ++ [c]) = 10 * decimalValue ds + digitValue c := by
  simp [decimalValue, List.foldl_append]

theorem formatBits_decimal (fuel : Nat) : ∀ (u : Nat) (acc : List Char), u < fuel →
    ∃ ds : List Char, formatBits 10 fuel u acc = ds ++ acc ∧ ds ≠ [] ∧
      (∀ c ∈ ds, 48 ≤ c.toNat ∧ c.toNat ≤ 57) ∧ decimalValue ds = u := by
  induction fuel with
  | zero => intro u acc h; exact absurd h (Nat.not_lt_zero u)
  | succ fuel ih =>
    intro u acc hu
    have hd : u % 10 < 10 := Nat.mod_lt u (by decide)
    have hc := strconvDigits_decimal (u % 10) hd
    by_cases hq : u / 10 = 0
    · refine ⟨[strconvDigits.getD (u % 10) '0'], ?_, ?_, ?_, ?_⟩
      · simp [formatBits, hq]
      · simp
      · intro c hmem
        rw [List.mem_singleton] at hmem
        rw [hmem, hc]
        omega
      · simp only [decimalValue, List.foldl, digitValue, hc]
        omega
    · have hlt : u / 10 < fuel := by omega
      obtain ⟨ds, heq, hne, hall, hval⟩ :=
        ih (u / 10) (strconvDigits.getD (u % 10) '0' :: acc) hlt
      refine ⟨ds ++ [strconvDigits.getD (u % 10) '0'], ?_, ?_, ?_, ?_⟩
      · have hstep : formatBits 10 (fuel + 1) u acc =
            formatBits 10 fuel (u / 10) (strconvDigits.getD (u % 10) '0' :: acc) := by
          simp only [formatBits, hq, if_false]
        rw [hstep, heq, List.append_assoc]
        rfl
      · simp
      · intro c hmem
        rw [List.mem_append, List.mem_singleton] at hmem
        rcases hmem with hm | hm
        · exact hall c hm
        · rw [hm, hc]
          omega
      · rw [decimalValue_snoc, hval, digitValue, hc]
        omega

theorem isDecimalDigits_of (ds : List Char) (hne : ds ≠ [])
    (hall : ∀ c ∈ ds, 48 ≤ c.toNat ∧ c.toNat ≤ 57) : isDecimalDigits ds = true := by
  cases ds with
  | nil => exact absurd rfl hne
  | cons c cs =>
    simp only [isDecimalDigits, List.isEmpty_cons, Bool.not_false, Bool.true_and,
      List.all_eq_true, decide_eq_true_eq]
    exact hall

theorem readDecimal_FormatInt (i : Int) : readDecimal (FormatInt i 10) = some i := by
  obtain ⟨ds, heq, hne, hall, hval⟩ :=
    formatBits_decimal (i.natAbs + 1) i.natAbs [] (Nat.lt_succ_self _)
  rw [List.append_nil] at heq
  have hdig := isDecimalDigits_of ds hne hall
  by_cases hi : i < 0
  · simp only [FormatInt, if_pos hi, heq, readDecimal, if_true, hdig, hval]
    congr 1
    omega
  · cases ds with
    | nil => exact absurd rfl hne
    | cons c cs =>
      have hcd := hall c (List.mem_cons_self c cs)
      have hcne : ¬ c = '-' := by
        intro hc
        rw [hc] at hcd
        exact absurd hcd (by decide)
      simp only [FormatInt, if_neg hi, heq, readDecimal, if_neg hcne, hdig, if_true, hval]
      congr 1
      omega

/-! ## Shape of the digest -/

theorem beBytes_length (k x : Nat) : (beBytes k x).length = k := by
  induction k with
  | zero => rfl
  | succ k ih => simp [beBytes, ih]

theorem sha1Sum_length (msg : List Nat) : (sha1Sum msg).length = 20 := by
  simp [sha1Sum, beBytes_length]

theorem hexEncode_length (bs : List Nat) : (hexEncode bs).length = 2 * bs.length := by
  induction bs with
  | nil => rfl
  | cons b bs ih =>
    show (hexDigit (b / 16) :: hexDigit (b % 16) :: hexEncode bs).length = _
    simp only [List.length_cons, ih]
    omega

theorem hexDigit_mem (n : Nat) : hexDigit n ∈ "0123456789abcdef".data := by
  by_cases h : n < 16
  · interval_cases n <;> decide
  · have hlen : "0123456789abcdef".data.length ≤ n := by
      have : "0123456789abcdef".data.length = 16 := by decide
      omega
    unfold hexDigit
    rw [List.getD_eq_default _ _ hlen]
    decide

theorem hexEncode_mem (bs : List Nat) :
    ∀ c ∈ hexEncode bs, c ∈ "0123456789abcdef".data := by
  induction bs with
  | nil => intro c hc; cases hc
  | cons b bs ih =>
    intro c hc
    have hc2 : c ∈ hexDigit (b / 16) :: hexDigit (b % 16) :: hexEncode bs := hc
    rw [List.mem_cons, List.mem_cons] at hc2
    rcases hc2 with h | h | h
    · rw [h]; exact hexDigit_mem _
    · rw [h]; exact hexDigit_mem _
    · exact ih c h

theorem Sha1Hash_Sum_nil (bs : List Nat) : Sha1Hash.Sum ⟨bs⟩ [] = sha1Sum bs := by
  unfold Sha1Hash.Sum
  exact List.nil_append _

theorem ioWriteString_sha1New (s : String) : ioWriteString sha1New s = ⟨stringBytes s⟩ := by
  unfold ioWriteString sha1New
  exact congrArg Sha1Hash.mk (List.nil_append _)

theorem signatureOf_eq (appSecret nonce timestamp : String) :
    signatureOf appSecret nonce timestamp = sha1Hex (appSecret ++ nonce ++ timestamp) := by
  unfold signatureOf sha1Hex fmtSprintfHex
  simp only []
  rw [ioWriteString_sha1New, Sha1Hash_Sum_nil]

/-! ### Evaluation of the digest on known inputs -/

set_option maxRecDepth 100000

theorem sha1Hex_test_vectors :
    sha1Hex "" = "da39a3ee5e6b4b0d3255bfef95601890afd80709" ∧
    sha1Hex "abc" = "a9993e364706816aba3e25717850c26c9cd0d89d" ∧
    sha1Hex "abcdbcdecdefdefgefghfghighijhijkijkljklmklmnlmnomnopnopq"
      = "84983e441c3bd26ebaae4aa1f95129e5e54670f1" := by
  decide

theorem sha1Hex_abc111222 :
    sha1Hex "abc111222" = "84d9932856bc74c0397479285329f543a073c764" := by
  decide

theorem getSignature_eq (rc : RongCloud) (nonceInt timeInt64 : Int) :
    getSignature rc nonceInt timeInt64 =
      (Itoa nonceInt, FormatInt timeInt64 10,
        sha1Hex (rc.appSecret ++ Itoa nonceInt ++ FormatInt timeInt64 10)) := by
  unfold getSignature
  simp only []
  rw [signatureOf_eq]

theorem sha1Hex_length (s : String) : (sha1Hex s).length = 40 := by
  unfold sha1Hex
  rw [String.length_mk, hexEncode_length, sha1Sum_length]

theorem sha1Hex_lowercase (s : String) :
    ∀ c ∈ (sha1Hex s).data, c ∈ "0123456789abcdef".data := by
  unfold sha1Hex
  exact hexEncode_mem _

/-! ## Injectivity of the encodings -/

theorem Char_toNat_lt (c : Char) : c.toNat < 1114112 := by
  have h := c.valid
  simp only [UInt32.isValidChar, Nat.isValidChar] at h
  show c.val.toNat < 1114112
  omega

theorem Char_toNat_inj (c d : Char) (h : c.toNat = d.toNat) : c = d := by
  rw [← Char.ofNat_toNat c, ← Char.ofNat_toNat d, h]

theorem or128 (x : Nat) (h : x < 64) : 0x80 ||| x = 128 + x := by
  interval_cases x <;> rfl

theorem or192 (x : Nat) (h : x < 32) : 0xc0 ||| x = 192 + x := by
  interval_cases x <;> rfl

theorem or224 (x : Nat) (h : x < 16) : 0xe0 ||| x = 224 + x := by
  interval_cases x <;> rfl

theorem or240 (x : Nat) (h : x < 8) : 0xf0 ||| x = 240 + x := by
  interval_cases x <;> rfl

theorem and63 (x : Nat) : x &&& 0x3f = x % 64 :=
  Nat.and_pow_two_sub_one_eq_mod x 6

theorem utf8EncodeChar_cases (c : Char) :
    (c.toNat ≤ 127 ∧ utf8EncodeChar c = [c.toNat]) ∨
    (128 ≤ c.toNat ∧ c.toNat ≤ 2047 ∧
      utf8EncodeChar c = [192 + c.toNat / 64, 128 + c.toNat % 64]) ∨
    (2048 ≤ c.toNat ∧ c.toNat ≤ 65535 ∧
      utf8EncodeChar c = [224 + c.toNat / 4096, 128 + c.toNat / 64 % 64, 128 + c.toNat % 64]) ∨
    (65536 ≤ c.toNat ∧ c.toNat < 1114112 ∧
      utf8EncodeChar c = [240 + c.toNat / 262144, 128 + c.toNat / 4096 % 64,
        128 + c.toNat / 64 % 64, 128 + c.toNat % 64]) := by
  have hlt := Char_toNat_lt c
  unfold utf8EncodeChar
  simp only [Nat.shiftRight_eq_div_pow, and63]
  by_cases h1 : c.toNat ≤ 0x7f
  · left
    exact ⟨h1, by rw [if_pos h1]⟩
  · by_cases h2 : c.toNat ≤ 0x7ff
    · right; left
      refine ⟨by omega, h2, ?_⟩
      rw [if_neg h1, if_pos h2, or192 _ (by omega), or128 _ (by omega)]
    · by_cases h3 : c.toNat ≤ 0xffff
      · right; right; left
        refine ⟨by omega, h3, ?_⟩
        rw [if_neg h1, if_neg h2, if_pos h3, or224 _ (by omega), or128 _ (by omega),
          or128 _ (by omega)]
      · right; right; right
        refine ⟨by omega, hlt, ?_⟩
        rw [if_neg h1, if_neg h2, if_neg h3, or240 _ (by omega), or128 _ (by omega),
          or128 _ (by omega), or128 _ (by omega)]

theorem utf8EncodeChar_append_inj (c d : Char) (r r2 : List Nat)
    (h : utf8EncodeChar c ++ r = utf8EncodeChar d ++ r2) : c = d ∧ r = r2 := by
  rcases utf8EncodeChar_cases c with ⟨hc, ec⟩ | ⟨hc1, hc2, ec⟩ | ⟨hc1, hc2, ec⟩ | ⟨hc1, hc2, ec⟩ <;>
    rcases utf8EncodeChar_cases d with
      ⟨hd, ed⟩ | ⟨hd1, hd2, ed⟩ | ⟨hd1, hd2, ed⟩ | ⟨hd1, hd2, ed⟩ <;>
    rw [ec, ed] at h <;>
    simp only [List.cons_append, List.nil_append, List.cons.injEq] at h <;>
    first
      | (exfalso; omega)
      | exact ⟨Char_toNat_inj c d (by omega), h.2⟩
      | exact ⟨Char_toNat_inj c d (by omega), h.2.2⟩
      | exact ⟨Char_toNat_inj c d (by omega), h.2.2.2⟩
      | exact ⟨Char_toNat_inj c d (by omega), h.2.2.2.2⟩

theorem stringBytes_chars_inj : ∀ cs ds : List Char,
    cs.foldr (fun c acc => utf8EncodeChar c ++ acc) [] =
      ds.foldr (fun c acc => utf8EncodeChar c ++ acc) [] → cs = ds := by
  intro cs
  induction cs with
  | nil =>
    intro ds h
    cases ds with
    | nil => rfl
    | cons d ds =>
      exfalso
      simp only [List.foldr] at h
      rcases utf8EncodeChar_cases d with ⟨_, ed⟩ | ⟨_, _, ed⟩ | ⟨_, _, ed⟩ | ⟨_, _, ed⟩ <;>
        rw [ed] at h <;> simp at h
  | cons c cs ih =>
    intro ds h
    cases ds with
    | nil =>
      exfalso
      simp only [List.foldr] at h
      rcases utf8EncodeChar_cases c with ⟨_, ec⟩ | ⟨_, _, ec⟩ | ⟨_, _, ec⟩ | ⟨_, _, ec⟩ <;>
        rw [ec] at h <;> simp at h
    | cons d ds =>
      simp only [List.foldr] at h
      obtain ⟨hcd, hrest⟩ := utf8EncodeChar_append_inj c d _ _ h
      rw [hcd, ih ds hrest]

theorem stringBytes_inj (s s2 : String) (h : stringBytes s = stringBytes s2) : s = s2 :=
  String.ext (stringBytes_chars_inj s.data s2.data h)

theorem hexDigit_toNat (n : Nat) (h : n < 16) :
    (hexDigit n).toNat = if n < 10 then 48 + n else 87 + n := by
  interval_cases n <;> rfl

theorem hexDigit_inj (a b : Nat) (ha : a < 16) (hb : b < 16) (h : hexDigit a = hexDigit b) :
    a = b := by
  have h1 := hexDigit_toNat a ha
  have h2 := hexDigit_toNat b hb
  rw [h] at h1
  rw [h1] at h2
  split at h2 <;> split at h2 <;> omega

theorem hexEncode_inj : ∀ a b : List Nat, (∀ x ∈ a, x < 256) → (∀ x ∈ b, x < 256) →
    hexEncode a = hexEncode b → a = b := by
  intro a
  induction a with
  | nil =>
    intro b _ _ h
    cases b with
    | nil => rfl
    | cons y ys => exact absurd h (by simp [hexEncode])
  | cons x xs ih =>
    intro b ha hb h
    cases b with
    | nil => exact absurd h (by simp [hexEncode])
    | cons y ys =>
      have h2 : hexDigit (x / 16) :: hexDigit (x % 16) :: hexEncode xs =
          hexDigit (y / 16) :: hexDigit (y % 16) :: hexEncode ys := h
      simp only [List.cons.injEq] at h2
      obtain ⟨hq, hr, ht⟩ := h2
      have hx := ha x (List.mem_cons_self x xs)
      have hy := hb y (List.mem_cons_self y ys)
      have e1 := hexDigit_inj _ _ (by omega) (by omega) hq
      have e2 := hexDigit_inj _ _ (by omega) (by omega) hr
      have hxy : x = y := by omega
      have hrest := ih ys (fun z hz => ha z (List.mem_cons_of_mem x hz))
        (fun z hz => hb z (List.mem_cons_of_mem y hz)) ht
      rw [hxy, hrest]

theorem beBytes_lt (k x : Nat) : ∀ b ∈ beBytes k x, b < 256 := by
  induction k with
  | zero => intro b hb; cases hb
  | succ k ih =>
    intro b hb
    have hb2 : b ∈ (x >>> (8 * k)) % 256 :: beBytes k x := hb
    rw [List.mem_cons] at hb2
    rcases hb2 with h | h
    · rw [h]; exact Nat.mod_lt _ (by decide)
    · exact ih b h

theorem sha1Sum_lt (msg : List Nat) : ∀ b ∈ sha1Sum msg, b < 256 := by
  intro b hb
  unfold sha1Sum at hb
  simp only [List.mem_append] at hb
  rcases hb with (((h | h) | h) | h) | h <;> exact beBytes_lt _ _ b h

theorem sha1Hex_eq_iff (m m2 : String) :
    sha1Hex m = sha1Hex m2 ↔ sha1Sum (stringBytes m) = sha1Sum (stringBytes m2) := by
  constructor
  · intro h
    unfold sha1Hex at h
    exact hexEncode_inj _ _ (sha1Sum_lt _) (sha1Sum_lt _) (congrArg String.data h)
  · intro h
    unfold sha1Hex
    rw [h]

theorem append_right_cancel_string (a b x : String) (h : a ++ x = b ++ x) : a = b := by
  have hd := congrArg String.data h
  rw [String.data_append, String.data_append] at hd
  exact String.ext (List.append_cancel_right hd)

theorem append_left_cancel_string (x a b : String) (h : x ++ a = x ++ b) : a = b := by
  have hd := congrArg String.data h
  rw [String.data_append, String.data_append] at hd
  exact String.ext (List.append_cancel_left hd)

theorem concat_aligned (s n t s2 n2 t2 : String) (hs : s.length = s2.length)
    (hn : n.length = n2.length) (h : s ++ n ++ t = s2 ++ n2 ++ t2) :
    (s, n, t) = (s2, n2, t2) := by
  have hd := congrArg String.data h
  simp only [String.data_append, List.append_assoc] at hd
  have hs2 : s.data.length = s2.data.length := hs
  have hn2 : n.data.length = n2.data.length := hn
  obtain ⟨e1, hd2⟩ := List.append_inj hd hs2
  obtain ⟨e2, e3⟩ := List.append_inj hd2 hn2
  rw [String.ext e1, String.ext e2, String.ext e3]

/-! ## The signature -/

/-- C9: for every client, every integer `nonceInt` returned by `rand.Int()`
and every Unix time `timeInt64`, getSignature returns as nonce the decimal
string of `nonceInt` (`Itoa`, which reads back as `nonceInt`), as timestamp the
decimal string of `timeInt64`, and as signature the lowercase hexadecimal
SHA-1 digest, 40 characters long, of appSecret + nonce + timestamp in that
order; for the secret "abc", nonce 111 and timestamp 222 the signature is the
SHA-1 hex digest of "abc111222", which is
84d9932856bc74c0397479285329f543a073c764. -/
theorem getSignature_spec (rc : RongCloud) (nonceInt timeInt64 : Int) :
    (getSignature rc nonceInt timeInt64).1 = Itoa nonceInt ∧
    readDecimal (getSignature rc nonceInt timeInt64).1 = some nonceInt ∧
    (getSignature rc nonceInt timeInt64).2.1 = FormatInt timeInt64 10 ∧
    readDecimal (getSignature rc nonceInt timeInt64).2.1 = some timeInt64 ∧
    (getSignature rc nonceInt timeInt64).2.2 =
      sha1Hex (rc.appSecret ++ (getSignature rc nonceInt timeInt64).1 ++
        (getSignature rc nonceInt timeInt64).2.1) ∧
    (getSignature rc nonceInt timeInt64).2.2.length = 40 ∧
    (∀ c ∈ (getSignature rc nonceInt timeInt64).2.2.data, c ∈ "0123456789abcdef".data) ∧
    getSignature ⟨rc.appKey, "abc", rc.extra⟩ 111 222 = ("111", "222", sha1Hex "abc111222") ∧
    sha1Hex "abc111222" = "84d9932856bc74c0397479285329f543a073c764" := by
  have hex : getSignature ⟨rc.appKey, "abc", rc.extra⟩ 111 222
      = ("111", "222", sha1Hex "abc111222") := by
    have hn : Itoa 111 = "111" := by decide
    have ht : FormatInt 222 10 = "222" := by decide
    have hcat : "abc" ++ "111" ++ "222" = "abc111222" := by decide
    rw [getSignature_eq, hn, ht, hcat]
  rw [getSignature_eq rc nonceInt timeInt64]
  exact ⟨rfl, readDecimal_FormatInt nonceInt, rfl, readDecimal_FormatInt timeInt64, rfl,
    sha1Hex_length _, sha1Hex_lowercase _, hex, sha1Hex_abc111222⟩

/-- C10 (as stated, refuted): two triples of a secret and two decimal-digit
strings that differ, once in where the secret ends and once in where the
nonce ends, and have the same signature; the first pair is also produced by
getSignature itself, for the secrets "abc1" and "abc" and the nonces 11 and
111 at time 222. -/
theorem signatureOf_distinct_triples_counterexample :
    (isDecimalDigits "11".data = true ∧ isDecimalDigits "111".data = true ∧
      isDecimalDigits "222".data = true ∧ isDecimalDigits "1222".data = true) ∧
    (("abc1", "11", "222") ≠ ("abc", "111", "222") ∧
      signatureOf "abc1" "11" "222" = signatureOf "abc" "111" "222") ∧
    (("abc", "11", "1222") ≠ ("abc", "111", "222") ∧
      signatureOf "abc" "11" "1222" = signatureOf "abc" "111" "222") ∧
    (getSignature ⟨"key", "abc1", ⟨RONGCLOUDURI, RONGCLOUDSMSURI, 10, 3⟩⟩ 11 222).2.2 =
      (getSignature ⟨"key", "abc", ⟨RONGCLOUDURI, RONGCLOUDSMSURI, 10, 3⟩⟩ 111 222).2.2 := by
  refine ⟨by decide, ⟨by decide, ?_⟩, ⟨by decide, ?_⟩, ?_⟩
  · rw [signatureOf_eq, signatureOf_eq]
    exact congrArg sha1Hex (by decide)
  · rw [signatureOf_eq, signatureOf_eq]
    exact congrArg sha1Hex (by decide)
  · rw [getSignature_eq, getSignature_eq]
    exact congrArg sha1Hex (by decide)

/-- C10 (amended): the signature is the SHA-1 hex digest of the concatenation
secret + nonce + timestamp.  It is deterministic: equal triples, and triples
with equal concatenations, have equal signatures.  Two triples have equal
signatures exactly when the SHA-1 digests of their concatenations are equal,
so two triples whose concatenations differ sign differently unless the two
different byte strings collide under SHA-1.  The concatenations, and their
bytes, do differ whenever exactly one of the three components changes and
the other two are kept, and whenever the triples differ while the two
secrets have the same length and the two nonces have the same length. -/
theorem signatureOf_sensitivity
    (secret nonce timestamp secret2 nonce2 timestamp2 : String) :
    signatureOf secret nonce timestamp = sha1Hex (secret ++ nonce ++ timestamp) ∧
    ((secret, nonce, timestamp) = (secret2, nonce2, timestamp2) →
      signatureOf secret nonce timestamp = signatureOf secret2 nonce2 timestamp2) ∧
    (secret ++ nonce ++ timestamp = secret2 ++ nonce2 ++ timestamp2 →
      signatureOf secret nonce timestamp = signatureOf secret2 nonce2 timestamp2) ∧
    (signatureOf secret nonce timestamp = signatureOf secret2 nonce2 timestamp2 ↔
      sha1Sum (stringBytes (secret ++ nonce ++ timestamp)) =
        sha1Sum (stringBytes (secret2 ++ nonce2 ++ timestamp2))) ∧
    (secret ++ nonce ++ timestamp ≠ secret2 ++ nonce2 ++ timestamp2 →
      signatureOf secret nonce timestamp = signatureOf secret2 nonce2 timestamp2 →
      stringBytes (secret ++ nonce ++ timestamp) ≠
          stringBytes (secret2 ++ nonce2 ++ timestamp2) ∧
        sha1Sum (stringBytes (secret ++ nonce ++ timestamp)) =
          sha1Sum (stringBytes (secret2 ++ nonce2 ++ timestamp2))) ∧
    (secret ≠ secret2 →
      secret ++ nonce ++ timestamp ≠ secret2 ++ nonce ++ timestamp ∧
      stringBytes (secret ++ nonce ++ timestamp) ≠
        stringBytes (secret2 ++ nonce ++ timestamp)) ∧
    (nonce ≠ nonce2 →
      secret ++ nonce ++ timestamp ≠ secret ++ nonce2 ++ timestamp ∧
      stringBytes (secret ++ nonce ++ timestamp) ≠
        stringBytes (secret ++ nonce2 ++ timestamp)) ∧
    (timestamp ≠ timestamp2 →
      secret ++ nonce ++ timestamp ≠ secret ++ nonce ++ timestamp2 ∧
      stringBytes (secret ++ nonce ++ timestamp) ≠
        stringBytes (secret ++ nonce ++ timestamp2)) ∧
    (secret.length = secret2.length → nonce.length = nonce2.length →
      (secret, nonce, timestamp) ≠ (secret2, nonce2, timestamp2) →
      secret ++ nonce ++ timestamp ≠ secret2 ++ nonce2 ++ timestamp2 ∧
      stringBytes (secret ++ nonce ++ timestamp) ≠
        stringBytes (secret2 ++ nonce2 ++ timestamp2)) := by
  have hiff : signatureOf secret nonce timestamp = signatureOf secret2 nonce2 timestamp2 ↔
      sha1Sum (stringBytes (secret ++ nonce ++ timestamp)) =
        sha1Sum (stringBytes (secret2 ++ nonce2 ++ timestamp2)) := by
    rw [signatureOf_eq, signatureOf_eq]
    exact sha1Hex_eq_iff _ _
  have hbytes : ∀ m m2 : String, m ≠ m2 → m ≠ m2 ∧ stringBytes m ≠ stringBytes m2 :=
    fun m m2 hne => ⟨hne, fun hb => hne (stringBytes_inj m m2 hb)⟩
  have hcat : secret ++ nonce ++ timestamp = secret2 ++ nonce2 ++ timestamp2 →
      signatureOf secret nonce timestamp = signatureOf secret2 nonce2 timestamp2 := by
    intro h
    rw [signatureOf_eq, signatureOf_eq, h]
  refine ⟨signatureOf_eq secret nonce timestamp, ?_, hcat, hiff, ?_, ?_, ?_, ?_, ?_⟩
  · intro h
    have h1 : secret = secret2 := congrArg Prod.fst h
    have h2 : nonce = nonce2 := congrArg (fun p => p.2.1) h
    have h3 : timestamp = timestamp2 := congrArg (fun p => p.2.2) h
    rw [h1, h2, h3]
  · intro hne hsig
    exact ⟨(hbytes _ _ hne).2, hiff.mp hsig⟩
  · intro hne
    apply hbytes
    intro h
    exact hne (append_right_cancel_string _ _ nonce
      (append_right_cancel_string _ _ timestamp h))
  · intro hne
    apply hbytes
    intro h
    exact hne (append_left_cancel_string secret _ _
      (append_right_cancel_string _ _ timestamp h))
  · intro hne
    apply hbytes
    intro h
    exact hne (append_left_cancel_string (secret ++ nonce) _ _ h)
  · intro hs hn hne
    apply hbytes
    intro h
    exact hne (concat_aligned _ _ _ _ _ _ hs hn h)

/-- Witness for C10 (amended): around the triple ("abc", "111", "222"), a
change of the secret alone, of the nonce alone and of the timestamp alone
each changes the signature, and so does a change of nonce and timestamp
together that keeps their lengths; two triples with the same concatenation
"key517" sign the same. -/
theorem signatureOf_sensitivity_witness :
    signatureOf "abc" "111" "222" ≠ signatureOf "abd" "111" "222" ∧
    signatureOf "abc" "111" "222" ≠ signatureOf "abc" "112" "222" ∧
    signatureOf "abc" "111" "222" ≠ signatureOf "abc" "111" "223" ∧
    stringBytes ("abc" ++ "111" ++ "222") ≠ stringBytes ("abd" ++ "111" ++ "222") ∧
    "abc" ++ "111" ++ "222" ≠ "abc" ++ "112" ++ "221" ∧
    signatureOf "key" "5" "17" = signatureOf "key" "51" "7" :=
  ⟨mt (signatureOf_sensitivity "abc" "111" "222" "abd" "111" "222").2.2.2.1.mp (by decide),
    mt (signatureOf_sensitivity "abc" "111" "222" "abc" "112" "222").2.2.2.1.mp (by decide),
    mt (signatureOf_sensitivity "abc" "111" "222" "abc" "111" "223").2.2.2.1.mp (by decide),
    ((signatureOf_sensitivity "abc" "111" "222" "abd" "111" "222").2.2.2.2.2.1
      (by decide)).2,
    ((signatureOf_sensitivity "abc" "111" "222" "abc" "112" "221").2.2.2.2.2.2.2.2
      rfl rfl (by decide)).1,
    (signatureOf_sensitivity "key" "5" "17" "key" "51" "7").2.2.1 (by decide)⟩

/-! ## Construction -/

theorem NewRongCloud_nil (appKey appSecret : String) :
    NewRongCloud appKey appSecret none =
      ⟨appKey, appSecret, ⟨RONGCLOUDURI, RONGCLOUDSMSURI, DEFAULTTIMEOUT, NUMTIMEOUT⟩⟩ := rfl

theorem NewRongCloud_numTimeOut (appKey appSecret : String) (extra : RongCloudExtra) :
    (NewRongCloud appKey appSecret (some extra)).extra.numTimeOut = extra.numTimeOut := by
  unfold NewRongCloud
  by_cases ht : extra.TimeOut = 0 <;>
    by_cases hs : extra.RongCloudSMSURI = "" <;>
    by_cases hu : extra.RongCloudURI = "" <;>
    simp [ht, hs, hu]

/-- C11: for every appKey and appSecret, NewRongCloud with a nil override
returns the client that stores that appKey and appSecret and has
RongCloudURI "http://api-cn.ronghub.com" (RONGCLOUDURI), RongCloudSMSURI
"http://api.sms.ronghub.com" (RONGCLOUDSMSURI), TimeOut 10 (DEFAULTTIMEOUT)
and numTimeOut 3 (NUMTIMEOUT). -/
theorem NewRongCloud_defaults (appKey appSecret : String) :
    NewRongCloud appKey appSecret none =
      ⟨appKey, appSecret, ⟨"http://api-cn.ronghub.com", "http://api.sms.ronghub.com", 10, 3⟩⟩ ∧
    (NewRongCloud appKey appSecret none).appKey = appKey ∧
    (NewRongCloud appKey appSecret none).appSecret = appSecret ∧
    (NewRongCloud appKey appSecret none).extra.RongCloudURI = RONGCLOUDURI ∧
    (NewRongCloud appKey appSecret none).extra.RongCloudSMSURI = RONGCLOUDSMSURI ∧
    (NewRongCloud appKey appSecret none).extra.TimeOut = DEFAULTTIMEOUT ∧
    (NewRongCloud appKey appSecret none).extra.numTimeOut = NUMTIMEOUT :=
  ⟨rfl, rfl, rfl, rfl, rfl, rfl, rfl⟩

/-- C12: for every non-nil override, when its RongCloudURI or its
RongCloudSMSURI is empty the client built by NewRongCloud has both URLs equal
to the defaults RONGCLOUDURI and RONGCLOUDSMSURI, and when both are non-empty
the client has exactly the two URLs supplied. -/
theorem NewRongCloud_url_pair (appKey appSecret : String) (extra : RongCloudExtra) :
    (extra.RongCloudURI = "" ∨ extra.RongCloudSMSURI = "" →
      (NewRongCloud appKey appSecret (some extra)).extra.RongCloudURI = RONGCLOUDURI ∧
      (NewRongCloud appKey appSecret (some extra)).extra.RongCloudSMSURI = RONGCLOUDSMSURI) ∧
    (extra.RongCloudURI ≠ "" ∧ extra.RongCloudSMSURI ≠ "" →
      (NewRongCloud appKey appSecret (some extra)).extra.RongCloudURI = extra.RongCloudURI ∧
      (NewRongCloud appKey appSecret (some extra)).extra.RongCloudSMSURI
        = extra.RongCloudSMSURI) := by
  unfold NewRongCloud
  by_cases ht : extra.TimeOut = 0 <;>
    by_cases hs : extra.RongCloudSMSURI = "" <;>
    by_cases hu : extra.RongCloudURI = "" <;>
    simp [ht, hs, hu]

/-- Witness for C12: only the SMS URL given, only the primary URL given,
neither, and both. -/
theorem NewRongCloud_url_pair_witness :
    ((NewRongCloud "key" "secret" (some ⟨"", "http://sms.example.com", 5, 0⟩)).extra.RongCloudURI
        = RONGCLOUDURI ∧
      (NewRongCloud "key" "secret" (some ⟨"", "http://sms.example.com", 5, 0⟩)).extra.RongCloudSMSURI
        = RONGCLOUDSMSURI) ∧
    ((NewRongCloud "key" "secret" (some ⟨"http://api.example.com", "", 5, 0⟩)).extra.RongCloudURI
        = RONGCLOUDURI ∧
      (NewRongCloud "key" "secret" (some ⟨"http://api.example.com", "", 5, 0⟩)).extra.RongCloudSMSURI
        = RONGCLOUDSMSURI) ∧
    ((NewRongCloud "key" "secret" (some ⟨"", "", 5, 0⟩)).extra.RongCloudURI = RONGCLOUDURI ∧
      (NewRongCloud "key" "secret" (some ⟨"", "", 5, 0⟩)).extra.RongCloudSMSURI
        = RONGCLOUDSMSURI) ∧
    ((NewRongCloud "key" "secret"
        (some ⟨"http://api.example.com", "http://sms.example.com", 5, 0⟩)).extra.RongCloudURI
        = "http://api.example.com" ∧
      (NewRongCloud "key" "secret"
        (some ⟨"http://api.example.com", "http://sms.example.com", 5, 0⟩)).extra.RongCloudSMSURI
        = "http://sms.example.com") :=
  ⟨(NewRongCloud_url_pair "key" "secret" ⟨"", "http://sms.example.com", 5, 0⟩).1
      (Or.inl rfl),
    (NewRongCloud_url_pair "key" "secret" ⟨"http://api.example.com", "", 5, 0⟩).1
      (Or.inr rfl),
    (NewRongCloud_url_pair "key" "secret" ⟨"", "", 5, 0⟩).1 (Or.inl rfl),
    (NewRongCloud_url_pair "key" "secret"
      ⟨"http://api.example.com", "http://sms.example.com", 5, 0⟩).2 ⟨by decide, by decide⟩⟩

/-- C13: for every non-nil override, the TimeOut of the client built by
NewRongCloud is the default 10 (DEFAULTTIMEOUT) when the override has TimeOut
zero and is the TimeOut of the override when that is non-zero, whatever the
URL fields of the override are. -/
theorem NewRongCloud_timeout (appKey appSecret : String) (extra : RongCloudExtra) :
    (extra.TimeOut = 0 →
      (NewRongCloud appKey appSecret (some extra)).extra.TimeOut = 10 ∧
      (NewRongCloud appKey appSecret (some extra)).extra.TimeOut = DEFAULTTIMEOUT) ∧
    (extra.TimeOut ≠ 0 →
      (NewRongCloud appKey appSecret (some extra)).extra.TimeOut = extra.TimeOut) := by
  unfold NewRongCloud
  by_cases ht : extra.TimeOut = 0 <;>
    by_cases hs : extra.RongCloudSMSURI = "" <;>
    by_cases hu : extra.RongCloudURI = "" <;>
    simp [ht, hs, hu, DEFAULTTIMEOUT]

/-- Witness for C13: a zero and a non-zero TimeOut, each once with both URLs
given and once with the primary URL left empty. -/
theorem NewRongCloud_timeout_witness :
    (NewRongCloud "key" "secret"
      (some ⟨"http://api.example.com", "http://sms.example.com", 0, 0⟩)).extra.TimeOut = 10 ∧
    (NewRongCloud "key" "secret" (some ⟨"", "http://sms.example.com", 0, 0⟩)).extra.TimeOut
      = 10 ∧
    (NewRongCloud "key" "secret"
      (some ⟨"http://api.example.com", "http://sms.example.com", 30, 0⟩)).extra.TimeOut = 30 ∧
    (NewRongCloud "key" "secret" (some ⟨"", "http://sms.example.com", 30, 0⟩)).extra.TimeOut
      = 30 :=
  ⟨((NewRongCloud_timeout "key" "secret"
      ⟨"http://api.example.com", "http://sms.example.com", 0, 0⟩).1 rfl).1,
    ((NewRongCloud_timeout "key" "secret" ⟨"", "http://sms.example.com", 0, 0⟩).1 rfl).1,
    (NewRongCloud_timeout "key" "secret"
      ⟨"http://api.example.com", "http://sms.example.com", 30, 0⟩).2 (by decide),
    (NewRongCloud_timeout "key" "secret" ⟨"", "http://sms.example.com", 30, 0⟩).2 (by decide)⟩

/-! ## Request headers -/

theorem lookup_filter_ne (hs : List (String × String)) (k k2 : String) (h : k2 ≠ k) :
    (hs.filter (fun p => p.1 != k)).lookup k2 = hs.lookup k2 := by
  induction hs with
  | nil => rfl
  | cons p ps ih =>
    obtain ⟨a, b⟩ := p
    rw [List.filter_cons]
    by_cases hak : a = k
    · have hf : ((a, b).1 != k) = false := by simp [hak]
      have hb : (k2 == a) = false := by rw [hak]; simpa using h
      rw [hf, if_neg (by decide), List.lookup_cons, hb, ih]
    · have hf : ((a, b).1 != k) = true := by simpa using hak
      rw [hf, if_pos rfl, List.lookup_cons, List.lookup_cons, ih]

theorem get_Header_same (req : BeegoHTTPRequest) (k v : String) :
    (req.Header k v).get k = some v := by
  simp [BeegoHTTPRequest.Header, BeegoHTTPRequest.get, List.lookup]

theorem get_Header_ne (req : BeegoHTTPRequest) (k v k2 : String) (h : k2 ≠ k) :
    (req.Header k v).get k2 = req.get k2 := by
  simp only [BeegoHTTPRequest.Header, BeegoHTTPRequest.get]
  rw [List.lookup_cons]
  have hb : (k2 == k) = false := by simpa using h
  rw [hb]
  exact lookup_filter_ne req.headers k k2 h

theorem FillHeader_eq (rc : RongCloud) (nonceInt timeInt64 : Int) (req : BeegoHTTPRequest) :
    FillHeader rc nonceInt timeInt64 req =
      (((((req.Header "App-Key" rc.appKey).Header "Nonce"
        (getSignature rc nonceInt timeInt64).1).Header "Timestamp"
        (getSignature rc nonceInt timeInt64).2.1).Header "Signature"
        (getSignature rc nonceInt timeInt64).2.2).Header "Content-Type"
        "application/x-www-form-urlencoded").Header "User-Agent" USERAGENT := rfl

/-- C14: after FillHeader the header App-Key holds the appKey of the client,
Nonce, Timestamp and Signature hold the triple of one getSignature call (so
Signature is the SHA-1 hex digest of appSecret + the Nonce header + the
Timestamp header), Content-Type holds "application/x-www-form-urlencoded",
User-Agent holds "rc-go-sdk/3.0", and the header under every other key is the
one the request had before. -/
theorem FillHeader_spec (rc : RongCloud) (nonceInt timeInt64 : Int) (req : BeegoHTTPRequest) :
    (FillHeader rc nonceInt timeInt64 req).get "App-Key" = some rc.appKey ∧
    ((FillHeader rc nonceInt timeInt64 req).get "Nonce"
        = some (getSignature rc nonceInt timeInt64).1 ∧
      (FillHeader rc nonceInt timeInt64 req).get "Timestamp"
        = some (getSignature rc nonceInt timeInt64).2.1 ∧
      (FillHeader rc nonceInt timeInt64 req).get "Signature"
        = some (getSignature rc nonceInt timeInt64).2.2) ∧
    (∃ nonce timestamp : String,
      (FillHeader rc nonceInt timeInt64 req).get "Nonce" = some nonce ∧
      (FillHeader rc nonceInt timeInt64 req).get "Timestamp" = some timestamp ∧
      (FillHeader rc nonceInt timeInt64 req).get "Signature"
        = some (sha1Hex (rc.appSecret ++ nonce ++ timestamp))) ∧
    (FillHeader rc nonceInt timeInt64 req).get "Content-Type"
      = some "application/x-www-form-urlencoded" ∧
    (FillHeader rc nonceInt timeInt64 req).get "User-Agent" = some "rc-go-sdk/3.0" ∧
    (∀ key : String,
      key ∉ ["App-Key", "Nonce", "Timestamp", "Signature", "Content-Type", "User-Agent"] →
      (FillHeader rc nonceInt timeInt64 req).get key = req.get key) := by
  have hA : (FillHeader rc nonceInt timeInt64 req).get "App-Key" = some rc.appKey := by
    rw [FillHeader_eq, get_Header_ne _ _ _ _ (by decide), get_Header_ne _ _ _ _ (by decide),
      get_Header_ne _ _ _ _ (by decide), get_Header_ne _ _ _ _ (by decide),
      get_Header_ne _ _ _ _ (by decide), get_Header_same]
  have hN : (FillHeader rc nonceInt timeInt64 req).get "Nonce"
      = some (getSignature rc nonceInt timeInt64).1 := by
    rw [FillHeader_eq, get_Header_ne _ _ _ _ (by decide), get_Header_ne _ _ _ _ (by decide),
      get_Header_ne _ _ _ _ (by decide), get_Header_ne _ _ _ _ (by decide), get_Header_same]
  have hT : (FillHeader rc nonceInt timeInt64 req).get "Timestamp"
      = some (getSignature rc nonceInt timeInt64).2.1 := by
    rw [FillHeader_eq, get_Header_ne _ _ _ _ (by decide), get_Header_ne _ _ _ _ (by decide),
      get_Header_ne _ _ _ _ (by decide), get_Header_same]
  have hS : (FillHeader rc nonceInt timeInt64 req).get "Signature"
      = some (getSignature rc nonceInt timeInt64).2.2 := by
    rw [FillHeader_eq, get_Header_ne _ _ _ _ (by decide), get_Header_ne _ _ _ _ (by decide),
      get_Header_same]
  have hC : (FillHeader rc nonceInt timeInt64 req).get "Content-Type"
      = some "application/x-www-form-urlencoded" := by
    rw [FillHeader_eq, get_Header_ne _ _ _ _ (by decide), get_Header_same]
  have hU : (FillHeader rc nonceInt timeInt64 req).get "User-Agent" = some "rc-go-sdk/3.0" := by
    rw [FillHeader_eq, get_Header_same]
    rfl
  refine ⟨hA, ⟨hN, hT, hS⟩, ?_, hC, hU, ?_⟩
  · refine ⟨Itoa nonceInt, FormatInt timeInt64 10, ?_, ?_, ?_⟩
    · rw [hN, getSignature_eq]
    · rw [hT, getSignature_eq]
    · rw [hS, getSignature_eq]
  · intro key hkey
    simp only [List.mem_cons, List.mem_singleton, List.not_mem_nil, or_false, not_or] at hkey
    obtain ⟨h1, h2, h3, h4, h5, h6⟩ := hkey
    rw [FillHeader_eq, get_Header_ne _ _ _ _ h6, get_Header_ne _ _ _ _ h5,
      get_Header_ne _ _ _ _ h4, get_Header_ne _ _ _ _ h3, get_Header_ne _ _ _ _ h2,
      get_Header_ne _ _ _ _ h1]

/-- Witness for C14: a request that already carries an Accept header and a
stale Nonce, filled for the secret "abc" with nonce 111 at time 222. -/
theorem FillHeader_spec_witness :
    (FillHeader ⟨"key", "abc", ⟨RONGCLOUDURI, RONGCLOUDSMSURI, 10, 3⟩⟩ 111 222
      ⟨[("Accept", "text/plain"), ("Nonce", "7")]⟩).get "Accept" = some "text/plain" :=
  (FillHeader_spec ⟨"key", "abc", ⟨RONGCLOUDURI, RONGCLOUDSMSURI, 10, 3⟩⟩ 111 222
    ⟨[("Accept", "text/plain"), ("Nonce", "7")]⟩).2.2.2.2.2 "Accept" (by decide)

/-- C15: FillJSONHeader sets Content-Type to "application/json" and leaves the
header under every other key unchanged; applied after FillHeader, the headers
App-Key, Nonce, Timestamp, Signature and User-Agent keep the values FillHeader
gave them and Content-Type is the only one that differs. -/
theorem FillJSONHeader_spec (rc : RongCloud) (nonceInt timeInt64 : Int)
    (req : BeegoHTTPRequest) :
    (FillJSONHeader req).get "Content-Type" = some "application/json" ∧
    (∀ key : String, key ≠ "Content-Type" → (FillJSONHeader req).get key = req.get key) ∧
    ((FillJSONHeader (FillHeader rc nonceInt timeInt64 req)).get "App-Key"
        = (FillHeader rc nonceInt timeInt64 req).get "App-Key" ∧
      (FillJSONHeader (FillHeader rc nonceInt timeInt64 req)).get "Nonce"
        = (FillHeader rc nonceInt timeInt64 req).get "Nonce" ∧
      (FillJSONHeader (FillHeader rc nonceInt timeInt64 req)).get "Timestamp"
        = (FillHeader rc nonceInt timeInt64 req).get "Timestamp" ∧
      (FillJSONHeader (FillHeader rc nonceInt timeInt64 req)).get "Signature"
        = (FillHeader rc nonceInt timeInt64 req).get "Signature" ∧
      (FillJSONHeader (FillHeader rc nonceInt timeInt64 req)).get "User-Agent"
        = (FillHeader rc nonceInt timeInt64 req).get "User-Agent") ∧
    ((FillJSONHeader (FillHeader rc nonceInt timeInt64 req)).get "Content-Type"
        = some "application/json" ∧
      (FillJSONHeader (FillHeader rc nonceInt timeInt64 req)).get "Content-Type"
        ≠ (FillHeader rc nonceInt timeInt64 req).get "Content-Type") := by
  have hset : ∀ r : BeegoHTTPRequest,
      (FillJSONHeader r).get "Content-Type" = some "application/json" :=
    fun r => get_Header_same r "Content-Type" "application/json"
  have hframe : ∀ (r : BeegoHTTPRequest) (key : String), key ≠ "Content-Type" →
      (FillJSONHeader r).get key = r.get key :=
    fun r key hk => get_Header_ne r "Content-Type" "application/json" key hk
  have hform : (FillHeader rc nonceInt timeInt64 req).get "Content-Type"
      = some "application/x-www-form-urlencoded" := by
    rw [FillHeader_eq, get_Header_ne _ _ _ _ (by decide), get_Header_same]
  refine ⟨hset req, hframe req, ⟨hframe _ _ (by decide), hframe _ _ (by decide),
    hframe _ _ (by decide), hframe _ _ (by decide), hframe _ _ (by decide)⟩, hset _, ?_⟩
  rw [hset, hform]
  decide

/-- Witness for C15: an Accept header survives FillJSONHeader. -/
theorem FillJSONHeader_spec_witness :
    (FillJSONHeader ⟨[("Accept", "text/plain"), ("Content-Type", "text/html")]⟩).get "Accept"
      = some "text/plain" :=
  (FillJSONHeader_spec ⟨"key", "abc", ⟨RONGCLOUDURI, RONGCLOUDSMSURI, 10, 3⟩⟩ 111 222
    ⟨[("Accept", "text/plain"), ("Content-Type", "text/html")]⟩).2.1 "Accept" (by decide)

/-! ## Effect of one call on the fields of the client -/

theorem setRongCloudURI_frame (rc : RongCloud) :
    (setRongCloudURI rc).appKey = rc.appKey ∧
    (setRongCloudURI rc).appSecret = rc.appSecret ∧
    (setRongCloudURI rc).extra.RongCloudSMSURI = rc.extra.RongCloudSMSURI ∧
    (setRongCloudURI rc).extra.TimeOut = rc.extra.TimeOut ∧
    (setRongCloudURI rc).extra.numTimeOut = rc.extra.numTimeOut := by
  unfold setRongCloudURI
  split
  · exact ⟨rfl, rfl, rfl, rfl, rfl⟩
  · split
    · exact ⟨rfl, rfl, rfl, rfl, rfl⟩
    · exact ⟨rfl, rfl, rfl, rfl, rfl⟩

theorem setRongCloudURI_URI (rc : RongCloud) :
    (rc.extra.RongCloudURI = RONGCLOUDURI ∧
      (setRongCloudURI rc).extra.RongCloudURI = RONGCLOUDURI_2) ∨
    (rc.extra.RongCloudURI = RONGCLOUDURI_2 ∧
      (setRongCloudURI rc).extra.RongCloudURI = RONGCLOUDURI_2) ∨
    (rc.extra.RongCloudURI ≠ RONGCLOUDURI ∧ rc.extra.RongCloudURI ≠ RONGCLOUDURI_2 ∧
      (setRongCloudURI rc).extra.RongCloudURI = RONGCLOUDURI) := by
  by_cases hp : rc.extra.RongCloudURI = RONGCLOUDURI
  · left
    rw [setRongCloudURI_primary rc hp]
    exact ⟨hp, rfl⟩
  · by_cases hs : rc.extra.RongCloudURI = RONGCLOUDURI_2
    · right; left
      rw [setRongCloudURI_secondary rc hs]
      exact ⟨hs, hs⟩
    · right; right
      rw [setRongCloudURI_custom rc hp hs]
      exact ⟨hp, hs, rfl⟩

theorem URLError_frame (rc : RongCloud) (err : GoError) :
    (URLError rc err).appKey = rc.appKey ∧
    (URLError rc err).appSecret = rc.appSecret ∧
    (URLError rc err).extra.RongCloudSMSURI = rc.extra.RongCloudSMSURI ∧
    (URLError rc err).extra.TimeOut = rc.extra.TimeOut := by
  have hf := setRongCloudURI_frame rc
  unfold URLError
  split
  · split
    · exact ⟨rfl, rfl, rfl, rfl⟩
    · split
      · exact ⟨hf.1, hf.2.1, hf.2.2.1, hf.2.2.2.1⟩
      · exact ⟨rfl, rfl, rfl, rfl⟩
  · exact ⟨rfl, rfl, rfl, rfl⟩

theorem URLError_URI (rc : RongCloud) (err : GoError) :
    (URLError rc err).extra.RongCloudURI = rc.extra.RongCloudURI ∨
    (rc.extra.RongCloudURI = RONGCLOUDURI ∧
      (URLError rc err).extra.RongCloudURI = RONGCLOUDURI_2) ∨
    (rc.extra.RongCloudURI ≠ RONGCLOUDURI ∧ rc.extra.RongCloudURI ≠ RONGCLOUDURI_2 ∧
      (URLError rc err).extra.RongCloudURI = RONGCLOUDURI) := by
  have hu := setRongCloudURI_URI rc
  unfold URLError
  split
  · split
    · exact Or.inl rfl
    · split
      · rcases hu with ⟨h1, h2⟩ | ⟨h1, h2⟩ | ⟨h1, h2, h3⟩
        · exact Or.inr (Or.inl ⟨h1, h2⟩)
        · exact Or.inl (h2.trans h1.symm)
        · exact Or.inr (Or.inr ⟨h1, h2, h3⟩)
      · exact Or.inl rfl
  · exact Or.inl rfl

theorem URLError_numTimeOut_nonneg (rc : RongCloud) (err : GoError)
    (h : 0 ≤ rc.extra.numTimeOut) : 0 ≤ (URLError rc err).extra.numTimeOut := by
  unfold URLError
  split
  · split
    · exact h
    · split
      · exact Int.le_of_lt Int.one_pos
      · exact Int.add_nonneg h (Int.le_of_lt Int.one_pos)
  · exact h

theorem SetNumTimeOut_frame (rc : RongCloud) (num : Int) :
    (SetNumTimeOut rc num).1.appKey = rc.appKey ∧
    (SetNumTimeOut rc num).1.appSecret = rc.appSecret ∧
    (SetNumTimeOut rc num).1.extra.RongCloudURI = rc.extra.RongCloudURI ∧
    (SetNumTimeOut rc num).1.extra.RongCloudSMSURI = rc.extra.RongCloudSMSURI ∧
    (SetNumTimeOut rc num).1.extra.TimeOut = rc.extra.TimeOut := by
  unfold SetNumTimeOut
  split
  · exact ⟨rfl, rfl, rfl, rfl, rfl⟩
  · exact ⟨rfl, rfl, rfl, rfl, rfl⟩

theorem SetNumTimeOut_numTimeOut_nonneg (rc : RongCloud) (num : Int)
    (h : 0 ≤ rc.extra.numTimeOut) : 0 ≤ (SetNumTimeOut rc num).1.extra.numTimeOut := by
  unfold SetNumTimeOut
  split
  · exact h
  · rename_i hn
    exact Int.not_lt.mp hn

theorem Call_apply_URI (rc : RongCloud) (c : Call) :
    (Call.apply rc c).extra.RongCloudURI = rc.extra.RongCloudURI ∨
    (rc.extra.RongCloudURI = RONGCLOUDURI ∧
      (Call.apply rc c).extra.RongCloudURI = RONGCLOUDURI_2) ∨
    (rc.extra.RongCloudURI ≠ RONGCLOUDURI ∧ rc.extra.RongCloudURI ≠ RONGCLOUDURI_2 ∧
      (Call.apply rc c).extra.RongCloudURI = RONGCLOUDURI) := by
  cases c with
  | setNumTimeOut num => exact Or.inl (SetNumTimeOut_frame rc num).2.2.1
  | urlError err => exact URLError_URI rc err

theorem runCalls_cons (rc : RongCloud) (c : Call) (cs : List Call) :
    runCalls rc (c :: cs) = runCalls (Call.apply rc c) cs := rfl

theorem runCalls_invariant (P : RongCloud → Prop)
    (hstep : ∀ (rc : RongCloud) (c : Call), P rc → P (Call.apply rc c)) :
    ∀ (calls : List Call) (rc : RongCloud), P rc → P (runCalls rc calls) := by
  intro calls
  induction calls with
  | nil => intro rc h; exact h
  | cons c cs ih =>
    intro rc h
    rw [runCalls_cons]
    exact ih (Call.apply rc c) (hstep rc c h)

theorem runCalls_secondary (calls : List Call) (rc : RongCloud)
    (h : rc.extra.RongCloudURI = RONGCLOUDURI_2) :
    (runCalls rc calls).extra.RongCloudURI = RONGCLOUDURI_2 := by
  refine runCalls_invariant (fun r => r.extra.RongCloudURI = RONGCLOUDURI_2) ?_ calls rc h
  intro r c hr
  rcases Call_apply_URI r c with h1 | ⟨h1, _⟩ | ⟨_, h2, _⟩
  · exact h1.trans hr
  · exact absurd (hr.symm.trans h1) RONGCLOUDURI_2_ne
  · exact absurd hr h2

theorem runCalls_defaults (calls : List Call) (rc : RongCloud)
    (h : rc.extra.RongCloudURI = RONGCLOUDURI ∨ rc.extra.RongCloudURI = RONGCLOUDURI_2) :
    (runCalls rc calls).extra.RongCloudURI = RONGCLOUDURI ∨
    (runCalls rc calls).extra.RongCloudURI = RONGCLOUDURI_2 := by
  refine runCalls_invariant (fun r => r.extra.RongCloudURI = RONGCLOUDURI ∨
    r.extra.RongCloudURI = RONGCLOUDURI_2) ?_ calls rc h
  intro r c hr
  rcases Call_apply_URI r c with h1 | ⟨_, h2⟩ | ⟨_, _, h3⟩
  · rcases hr with hr | hr
    · exact Or.inl (h1.trans hr)
    · exact Or.inr (h1.trans hr)
  · exact Or.inr h2
  · exact Or.inl h3

theorem runCalls_three_values (calls : List Call) (rc : RongCloud) :
    (runCalls rc calls).extra.RongCloudURI = rc.extra.RongCloudURI ∨
    (runCalls rc calls).extra.RongCloudURI = RONGCLOUDURI ∨
    (runCalls rc calls).extra.RongCloudURI = RONGCLOUDURI_2 := by
  refine runCalls_invariant (fun r => r.extra.RongCloudURI = rc.extra.RongCloudURI ∨
    r.extra.RongCloudURI = RONGCLOUDURI ∨ r.extra.RongCloudURI = RONGCLOUDURI_2) ?_ calls rc
    (Or.inl rfl)
  intro r c hr
  rcases Call_apply_URI r c with h1 | ⟨_, h2⟩ | ⟨_, _, h3⟩
  · rcases hr with hr | hr | hr
    · exact Or.inl (h1.trans hr)
    · exact Or.inr (Or.inl (h1.trans hr))
    · exact Or.inr (Or.inr (h1.trans hr))
  · exact Or.inr (Or.inr h2)
  · exact Or.inr (Or.inl h3)

/-! ## Invariants over sequences of calls -/

/-- C16 (as stated, refuted): a client built by NewRongCloud from an override
with custom URLs has the custom base URL at construction, the primary default
after `SetNumTimeOut(3)` and one transport error, and the secondary default
after three more transport errors: three distinct values, so no single
alternate host covers its runs. -/
theorem baseURL_two_values_counterexample :
    (NewRongCloud "key" "secret"
      (some ⟨"http://api.example.com", "http://sms.example.com", 0, 0⟩)).extra.RongCloudURI
      = "http://api.example.com" ∧
    (runCalls (NewRongCloud "key" "secret"
        (some ⟨"http://api.example.com", "http://sms.example.com", 0, 0⟩))
      [Call.setNumTimeOut 3, Call.urlError emptyURLError]).extra.RongCloudURI
      = RONGCLOUDURI ∧
    (runCalls (NewRongCloud "key" "secret"
        (some ⟨"http://api.example.com", "http://sms.example.com", 0, 0⟩))
      [Call.setNumTimeOut 3, Call.urlError emptyURLError, Call.urlError emptyURLError,
        Call.urlError emptyURLError, Call.urlError emptyURLError]).extra.RongCloudURI
      = RONGCLOUDURI_2 ∧
    ¬ ∃ alternate : String, ∀ calls : List Call,
      (runCalls (NewRongCloud "key" "secret"
          (some ⟨"http://api.example.com", "http://sms.example.com", 0, 0⟩))
        calls).extra.RongCloudURI
        = (NewRongCloud "key" "secret"
          (some ⟨"http://api.example.com", "http://sms.example.com", 0, 0⟩)).extra.RongCloudURI ∨
      (runCalls (NewRongCloud "key" "secret"
          (some ⟨"http://api.example.com", "http://sms.example.com", 0, 0⟩))
        calls).extra.RongCloudURI = alternate := by
  have h0 : (NewRongCloud "key" "secret"
      (some ⟨"http://api.example.com", "http://sms.example.com", 0, 0⟩)).extra.RongCloudURI
      = "http://api.example.com" := by decide
  have h1 : (runCalls (NewRongCloud "key" "secret"
        (some ⟨"http://api.example.com", "http://sms.example.com", 0, 0⟩))
      [Call.setNumTimeOut 3, Call.urlError emptyURLError]).extra.RongCloudURI
      = RONGCLOUDURI := by decide
  have h2 : (runCalls (NewRongCloud "key" "secret"
        (some ⟨"http://api.example.com", "http://sms.example.com", 0, 0⟩))
      [Call.setNumTimeOut 3, Call.urlError emptyURLError, Call.urlError emptyURLError,
        Call.urlError emptyURLError, Call.urlError emptyURLError]).extra.RongCloudURI
      = RONGCLOUDURI_2 := by decide
  refine ⟨h0, h1, h2, ?_⟩
  rintro ⟨alternate, hall⟩
  have a1 := hall [Call.setNumTimeOut 3, Call.urlError emptyURLError]
  have a2 := hall [Call.setNumTimeOut 3, Call.urlError emptyURLError,
    Call.urlError emptyURLError, Call.urlError emptyURLError, Call.urlError emptyURLError]
  rw [h1, h0] at a1
  rw [h2, h0] at a2
  rcases a1 with a1 | a1
  · exact absurd a1 (by decide)
  · rcases a2 with a2 | a2
    · exact absurd a2 (by decide)
    · exact absurd (a2.trans a1.symm) RONGCLOUDURI_2_ne

/-- C16 (amended): for every client built by NewRongCloud, with or without an
override, and every finite sequence of SetNumTimeOut and URLError calls on
it, the base URL is one of at most three values, the URL selected at
construction, RONGCLOUDURI or RONGCLOUDURI_2; and when the URL selected at
construction is one of the two defaults, as it is without an override, the
base URL is always one of the two defaults. -/
theorem baseURL_values (appKey appSecret : String) (extra : Option RongCloudExtra)
    (calls : List Call) :
    ((runCalls (NewRongCloud appKey appSecret extra) calls).extra.RongCloudURI
        = (NewRongCloud appKey appSecret extra).extra.RongCloudURI ∨
      (runCalls (NewRongCloud appKey appSecret extra) calls).extra.RongCloudURI
        = RONGCLOUDURI ∨
      (runCalls (NewRongCloud appKey appSecret extra) calls).extra.RongCloudURI
        = RONGCLOUDURI_2) ∧
    ((NewRongCloud appKey appSecret extra).extra.RongCloudURI = RONGCLOUDURI ∨
      (NewRongCloud appKey appSecret extra).extra.RongCloudURI = RONGCLOUDURI_2 →
      (runCalls (NewRongCloud appKey appSecret extra) calls).extra.RongCloudURI
        = RONGCLOUDURI ∨
      (runCalls (NewRongCloud appKey appSecret extra) calls).extra.RongCloudURI
        = RONGCLOUDURI_2) ∧
    ((runCalls (NewRongCloud appKey appSecret none) calls).extra.RongCloudURI = RONGCLOUDURI ∨
      (runCalls (NewRongCloud appKey appSecret none) calls).extra.RongCloudURI
        = RONGCLOUDURI_2) :=
  ⟨runCalls_three_values calls _, runCalls_defaults calls _,
    runCalls_defaults calls _ (Or.inl rfl)⟩

/-- Witness for C16 (amended): a client built from an override that leaves
the primary URL empty, so that it starts on the primary default. -/
theorem baseURL_values_witness :
    (runCalls (NewRongCloud "key" "secret" (some ⟨"", "http://sms.example.com", 0, 0⟩))
      [Call.setNumTimeOut 3, Call.urlError emptyURLError]).extra.RongCloudURI = RONGCLOUDURI ∨
    (runCalls (NewRongCloud "key" "secret" (some ⟨"", "http://sms.example.com", 0, 0⟩))
      [Call.setNumTimeOut 3, Call.urlError emptyURLError]).extra.RongCloudURI
      = RONGCLOUDURI_2 :=
  (baseURL_values "key" "secret" (some ⟨"", "http://sms.example.com", 0, 0⟩)
    [Call.setNumTimeOut 3, Call.urlError emptyURLError]).2.1 (Or.inl (by decide))

/-- C17: on a client whose numTimeOut is at least 0, after every finite
sequence of SetNumTimeOut calls (any integer argument, accepted or rejected)
and URLError calls (any error), numTimeOut is still at least 0. -/
theorem numTimeOut_nonneg (rc : RongCloud) (calls : List Call)
    (h : 0 ≤ rc.extra.numTimeOut) : 0 ≤ (runCalls rc calls).extra.numTimeOut := by
  refine runCalls_invariant (fun r => 0 ≤ r.extra.numTimeOut) ?_ calls rc h
  intro r c hr
  cases c with
  | setNumTimeOut num => exact SetNumTimeOut_numTimeOut_nonneg r num hr
  | urlError err => exact URLError_numTimeOut_nonneg r err hr

/-- Witness for C17: a client built without an override and one built from
an override that carries `numTimeOut = 0`, each under a run that mixes
rejected and accepted SetNumTimeOut calls with nil, transport and other
errors. -/
theorem numTimeOut_nonneg_witness :
    0 ≤ (runCalls (NewRongCloud "key" "secret" none)
      [Call.setNumTimeOut (-5), Call.urlError emptyURLError, Call.setNumTimeOut 2,
        Call.urlError none, Call.urlError emptyURLError]).extra.numTimeOut ∧
    0 ≤ (runCalls (NewRongCloud "key" "secret"
        (some ⟨"http://api.example.com", "http://sms.example.com", 0, 0⟩))
      [Call.urlError emptyURLError, Call.setNumTimeOut (-1), Call.setNumTimeOut 7,
        Call.urlError (some ⟨"*sdk.CodeResult", "401"⟩),
        Call.urlError emptyURLError]).extra.numTimeOut :=
  ⟨numTimeOut_nonneg (NewRongCloud "key" "secret" none)
      [Call.setNumTimeOut (-5), Call.urlError emptyURLError, Call.setNumTimeOut 2,
        Call.urlError none, Call.urlError emptyURLError] (by decide),
    numTimeOut_nonneg (NewRongCloud "key" "secret"
        (some ⟨"http://api.example.com", "http://sms.example.com", 0, 0⟩))
      [Call.urlError emptyURLError, Call.setNumTimeOut (-1), Call.setNumTimeOut 7,
        Call.urlError (some ⟨"*sdk.CodeResult", "401"⟩), Call.urlError emptyURLError]
      (by decide)⟩

/-- C18: for every client state, every error value and every integer,
URLError and SetNumTimeOut leave appKey, appSecret, RongCloudSMSURI and
TimeOut unchanged (SetNumTimeOut also RongCloudURI); URLError can change only
RongCloudURI and numTimeOut. -/
theorem credentials_immutable (rc : RongCloud) (err : GoError) (num : Int) :
    ((URLError rc err).appKey = rc.appKey ∧
      (URLError rc err).appSecret = rc.appSecret ∧
      (URLError rc err).extra.RongCloudSMSURI = rc.extra.RongCloudSMSURI ∧
      (URLError rc err).extra.TimeOut = rc.extra.TimeOut) ∧
    ((SetNumTimeOut rc num).1.appKey = rc.appKey ∧
      (SetNumTimeOut rc num).1.appSecret = rc.appSecret ∧
      (SetNumTimeOut rc num).1.extra.RongCloudSMSURI = rc.extra.RongCloudSMSURI ∧
      (SetNumTimeOut rc num).1.extra.TimeOut = rc.extra.TimeOut ∧
      (SetNumTimeOut rc num).1.extra.RongCloudURI = rc.extra.RongCloudURI) ∧
    URLError rc err =
      ⟨rc.appKey, rc.appSecret,
        ⟨(URLError rc err).extra.RongCloudURI, rc.extra.RongCloudSMSURI, rc.extra.TimeOut,
          (URLError rc err).extra.numTimeOut⟩⟩ := by
  have hu := URLError_frame rc err
  have hs := SetNumTimeOut_frame rc num
  refine ⟨hu, ⟨hs.1, hs.2.1, hs.2.2.2.1, hs.2.2.2.2, hs.2.2.1⟩, ?_⟩
  obtain ⟨h1, h2, h3, h4⟩ := hu
  rw [← h1, ← h2, ← h3, ← h4]

/-! ## Failover disabled by an override -/

theorem Call_apply_disabled (rc : RongCloud) (c : Call) (h0 : rc.extra.numTimeOut = 0)
    (hc : c.notPositiveSet = true) : Call.apply rc c = rc := by
  cases c with
  | urlError err => exact URLError_zero rc err h0
  | setNumTimeOut num =>
    have hle : num ≤ 0 := by simpa [Call.notPositiveSet] using hc
    show (SetNumTimeOut rc num).1 = rc
    unfold SetNumTimeOut
    split
    · rfl
    · rename_i hn
      have hz : num = 0 := by omega
      obtain ⟨k, s, e⟩ := rc
      obtain ⟨u, m, t, n⟩ := e
      simp only at h0
      simp [hz, h0]

theorem runCalls_disabled (calls : List Call) (rc : RongCloud)
    (h0 : rc.extra.numTimeOut = 0) (hc : ∀ c ∈ calls, c.notPositiveSet = true) :
    runCalls rc calls = rc := by
  induction calls with
  | nil => rfl
  | cons c cs ih =>
    rw [runCalls_cons, Call_apply_disabled rc c h0 (hc c (List.mem_cons_self c cs))]
    exact ih (fun d hd => hc d (List.mem_cons_of_mem c hd))

/-- C19: NewRongCloud keeps the numTimeOut of a non-nil override as it is, so
a client built from an override whose numTimeOut is 0 has numTimeOut 0, no
sequence of URLError calls with transport errors changes its base URL, and
the same holds for every sequence of calls in which SetNumTimeOut is never
given a positive value. -/
theorem override_disables_failover (appKey appSecret : String) (extra : RongCloudExtra)
    (errs : List GoError) (calls : List Call)
    (h0 : extra.numTimeOut = 0) (_ht : ∀ e ∈ errs, isTransportError e = true)
    (hc : ∀ c ∈ calls, c.notPositiveSet = true) :
    (NewRongCloud appKey appSecret (some extra)).extra.numTimeOut = extra.numTimeOut ∧
    (NewRongCloud appKey appSecret (some extra)).extra.numTimeOut = 0 ∧
    ((URLErrors (NewRongCloud appKey appSecret (some extra)) errs).extra.RongCloudURI
        = (NewRongCloud appKey appSecret (some extra)).extra.RongCloudURI ∧
      (URLErrors (NewRongCloud appKey appSecret (some extra)) errs).extra.numTimeOut = 0) ∧
    ((runCalls (NewRongCloud appKey appSecret (some extra)) calls).extra.RongCloudURI
        = (NewRongCloud appKey appSecret (some extra)).extra.RongCloudURI ∧
      (runCalls (NewRongCloud appKey appSecret (some extra)) calls).extra.numTimeOut = 0) := by
  have hn : (NewRongCloud appKey appSecret (some extra)).extra.numTimeOut = 0 := by
    rw [NewRongCloud_numTimeOut, h0]
  refine ⟨NewRongCloud_numTimeOut appKey appSecret extra, hn, ?_, ?_⟩
  · rw [URLErrors_zero _ errs hn]
    exact ⟨rfl, hn⟩
  · rw [runCalls_disabled calls _ hn hc]
    exact ⟨rfl, hn⟩

/-- Witness for C19: an override with custom URLs and the zero numTimeOut a
caller outside the package supplies; four transport errors, and a run with a
rejected and a zero SetNumTimeOut in between. -/
theorem override_disables_failover_witness :
    (NewRongCloud "key" "secret"
      (some ⟨"http://api.example.com", "http://sms.example.com", 0, 0⟩)).extra.numTimeOut = 0 ∧
    (URLErrors (NewRongCloud "key" "secret"
        (some ⟨"http://api.example.com", "http://sms.example.com", 0, 0⟩))
      (List.replicate 4 emptyURLError)).extra.RongCloudURI = "http://api.example.com" ∧
    (runCalls (NewRongCloud "key" "secret"
        (some ⟨"http://api.example.com", "http://sms.example.com", 0, 0⟩))
      [Call.urlError emptyURLError, Call.setNumTimeOut (-2), Call.setNumTimeOut 0,
        Call.urlError emptyURLError]).extra.RongCloudURI = "http://api.example.com" :=
  ⟨(override_disables_failover "key" "secret"
      ⟨"http://api.example.com", "http://sms.example.com", 0, 0⟩
      (List.replicate 4 emptyURLError)
      [Call.urlError emptyURLError, Call.setNumTimeOut (-2), Call.setNumTimeOut 0,
        Call.urlError emptyURLError] rfl (by decide) (by decide)).2.1,
    (override_disables_failover "key" "secret"
      ⟨"http://api.example.com", "http://sms.example.com", 0, 0⟩
      (List.replicate 4 emptyURLError)
      [Call.urlError emptyURLError, Call.setNumTimeOut (-2), Call.setNumTimeOut 0,
        Call.urlError emptyURLError] rfl (by decide) (by decide)).2.2.1.1,
    (override_disables_failover "key" "secret"
      ⟨"http://api.example.com", "http://sms.example.com", 0, 0⟩
      (List.replicate 4 emptyURLError)
      [Call.urlError emptyURLError, Call.setNumTimeOut (-2), Call.setNumTimeOut 0,
        Call.urlError emptyURLError] rfl (by decide) (by decide)).2.2.2.1⟩

/-! ## The secondary host is absorbing -/

theorem urlTrace_getElem (calls : List Call) : ∀ (rc : RongCloud) (i : Nat),
    i ≤ calls.length →
    (urlTrace rc calls)[i]? = some (runCalls rc (calls.take i)).extra.RongCloudURI := by
  induction calls with
  | nil =>
    intro rc i hi
    have hz : i = 0 := Nat.le_zero.mp hi
    rw [hz]
    rfl
  | cons c cs ih =>
    intro rc i hi
    cases i with
    | zero =>
      show (rc.extra.RongCloudURI :: urlTrace (Call.apply rc c) cs)[0]? = _
      rw [List.getElem?_cons_zero, List.take_zero]
      rfl
    | succ n =>
      have hn : n ≤ cs.length := Nat.le_of_succ_le_succ hi
      show (rc.extra.RongCloudURI :: urlTrace (Call.apply rc c) cs)[n + 1]? = _
      rw [List.getElem?_cons_succ, ih (Call.apply rc c) n hn]
      rfl

theorem countChanges_cons_urlTrace (a : String) (rc : RongCloud) (calls : List Call) :
    countChanges (a :: urlTrace rc calls) =
      (if a = rc.extra.RongCloudURI then 0 else 1) + countChanges (urlTrace rc calls) := by
  cases calls with
  | nil => rfl
  | cons c cs => rfl

theorem countChanges_secondary (calls : List Call) : ∀ rc : RongCloud,
    rc.extra.RongCloudURI = RONGCLOUDURI_2 → countChanges (urlTrace rc calls) = 0 := by
  induction calls with
  | nil => intro rc _; rfl
  | cons c cs ih =>
    intro rc h
    have hnext : (Call.apply rc c).extra.RongCloudURI = RONGCLOUDURI_2 :=
      runCalls_secondary [c] rc h
    show countChanges (rc.extra.RongCloudURI :: urlTrace (Call.apply rc c) cs) = 0
    rw [countChanges_cons_urlTrace, ih _ hnext, hnext, if_pos h]

theorem countChanges_primary (calls : List Call) : ∀ rc : RongCloud,
    rc.extra.RongCloudURI = RONGCLOUDURI → countChanges (urlTrace rc calls) ≤ 1 := by
  induction calls with
  | nil => intro rc _; exact Nat.zero_le 1
  | cons c cs ih =>
    intro rc h
    show countChanges (rc.extra.RongCloudURI :: urlTrace (Call.apply rc c) cs) ≤ 1
    rw [countChanges_cons_urlTrace]
    rcases Call_apply_URI rc c with h1 | ⟨_, h2⟩ | ⟨h3, _⟩
    · rw [if_pos h1.symm, Nat.zero_add]
      exact ih _ (h1.trans h)
    · rw [countChanges_secondary cs _ h2]
      split <;> decide
    · exact absurd h h3

/-- C20: on a client whose base URL is the secondary default RONGCLOUDURI_2,
after every finite sequence of URLError calls (any errors) and SetNumTimeOut
calls (any integers) the base URL is still RONGCLOUDURI_2; and along every
such sequence on a client built without an override the base URL changes at
most once. -/
theorem secondary_absorbing :
    (∀ (rc : RongCloud) (calls : List Call), rc.extra.RongCloudURI = RONGCLOUDURI_2 →
      (runCalls rc calls).extra.RongCloudURI = RONGCLOUDURI_2) ∧
    (∀ (appKey appSecret : String) (calls : List Call),
      countChanges (urlTrace (NewRongCloud appKey appSecret none) calls) ≤ 1) :=
  ⟨fun rc calls h => runCalls_secondary calls rc h,
    fun appKey appSecret calls =>
      countChanges_primary calls (NewRongCloud appKey appSecret none) rfl⟩

/-- Witness for C20: a client on the secondary default with counter 3 under
a run of five calls, and the URL trace of a default client that switches on
its first transport error and then never again. -/
theorem secondary_absorbing_witness :
    (runCalls ⟨"key", "secret", ⟨RONGCLOUDURI_2, RONGCLOUDSMSURI, 10, 3⟩⟩
      [Call.urlError emptyURLError, Call.setNumTimeOut 3, Call.urlError emptyURLError,
        Call.setNumTimeOut 9, Call.urlError emptyURLError]).extra.RongCloudURI
      = RONGCLOUDURI_2 ∧
    urlTrace (NewRongCloud "key" "secret" none)
      [Call.urlError emptyURLError, Call.setNumTimeOut 3, Call.urlError emptyURLError]
      = [RONGCLOUDURI, RONGCLOUDURI_2, RONGCLOUDURI_2, RONGCLOUDURI_2] ∧
    countChanges (urlTrace (NewRongCloud "key" "secret" none)
      [Call.urlError emptyURLError, Call.setNumTimeOut 3, Call.urlError emptyURLError]) ≤ 1 :=
  ⟨secondary_absorbing.1 ⟨"key", "secret", ⟨RONGCLOUDURI_2, RONGCLOUDSMSURI, 10, 3⟩⟩
      [Call.urlError emptyURLError, Call.setNumTimeOut 3, Call.urlError emptyURLError,
        Call.setNumTimeOut 9, Call.urlError emptyURLError] rfl,
    by decide,
    secondary_absorbing.2 "key" "secret"
      [Call.urlError emptyURLError, Call.setNumTimeOut 3, Call.urlError emptyURLError]⟩

end sdk
